import Mathlib

/-!
Fixed-window rate limiter (`rate_limiter`).

A shallow embedding of `validator/validator.go` and of the two HTTP handlers of
`main.go`, followed by the properties proved about them.

Modelling conventions.

* Go `int` and `time.Duration` are 64-bit signed integers.  They are embedded as
  `GoInt64`: a mathematical integer together with the proof that it lies in
  `[-2^63, 2^63 - 1]`.  Arithmetic that can leave the range wraps (`wrap64`).
* `time.Time` is an instant counted in nanoseconds on an unbounded line;
  `Time.Sub` saturates to the `Duration` range as the Go library documents.
* `map[string]RateLimiterData` is a partial function from keys to entries.  Go
  mutates the map in place; the embedding passes the map in and returns the
  map after the call.
* The mutex is held for the whole of `ValidateRequestLimit`, so one call is one
  indivisible step and locking does not appear in it; logging is left out.
  Requests served by several goroutines are schedules of such steps and of
  the handler statements that follow the call (`Handlers.step`).
* The package `config` (`DefaultRequest`, `DefaultLimit`, `DefaultWindow`) is
  taken as a parameter `Config`.
-/

namespace RateLimiter

/-! ## Machine integers -/

/-- Smallest 64-bit signed integer. -/
def minInt64 : Int := -9223372036854775808

/-- Largest 64-bit signed integer. -/
def maxInt64 : Int := 9223372036854775807

/-- Two's complement reduction of an integer to the 64-bit signed range. -/
def wrap64 (z : Int) : Int :=
  (z + 9223372036854775808) % 18446744073709551616 - 9223372036854775808

/-- A value of Go type `int` / `int64` / `time.Duration` (64-bit target). -/
structure GoInt64 where
  val : Int
  lo : minInt64 ≤ val
  hi : val ≤ maxInt64

instance : DecidableEq GoInt64 := fun a b =>
  if h : a.val = b.val then
    isTrue (by cases a; cases b; cases h; rfl)
  else isFalse (fun e => h (by rw [e]))

/-- Conversion of an integer constant or of an arithmetic result to the
machine type, wrapping on overflow. -/
def GoInt64.wrap (z : Int) : GoInt64 :=
  ⟨wrap64 z,
    by
      unfold wrap64 minInt64
      have := Int.emod_nonneg (z + 9223372036854775808)
        (show (18446744073709551616 : Int) ≠ 0 by norm_num)
      omega,
    by
      unfold wrap64 maxInt64
      have := Int.emod_lt_of_pos (z + 9223372036854775808)
        (show (0 : Int) < 18446744073709551616 by norm_num)
      omega⟩

instance : LT GoInt64 := ⟨fun a b => a.val < b.val⟩
instance : LE GoInt64 := ⟨fun a b => a.val ≤ b.val⟩
instance (a b : GoInt64) : Decidable (a < b) := inferInstanceAs (Decidable (a.val < b.val))
instance (a b : GoInt64) : Decidable (a ≤ b) := inferInstanceAs (Decidable (a.val ≤ b.val))

/-- Go `x + y` on `int`. -/
def GoInt64.add (a b : GoInt64) : GoInt64 := GoInt64.wrap (a.val + b.val)

/-- Go `x * y` on `int64`. -/
def GoInt64.mul (a b : GoInt64) : GoInt64 := GoInt64.wrap (a.val * b.val)

/-- Go `x++` on `int`. -/
def GoInt64.incr (a : GoInt64) : GoInt64 := GoInt64.wrap (a.val + 1)

/-- Go type `int`. -/
abbrev GoInt := GoInt64

/-! ## Package `time` -/

/-- Go `time.Duration`: a signed 64-bit count of nanoseconds. -/
abbrev Duration := GoInt64

/-- Go `time.Second`. -/
def Second : Duration := GoInt64.wrap 1000000000

/-- Go `n * time.Second` for an untyped integer constant `n`. -/
def seconds (n : Int) : Duration := GoInt64.mul (GoInt64.wrap n) Second

/-- Go `time.Time`: an instant, in nanoseconds. -/
structure Time where
  nanos : Int
  deriving DecidableEq

/-- Go `t.Sub(u)`: the duration `t - u`, saturated to the largest or smallest
`Duration` when the difference does not fit. -/
def Time.Sub (t u : Time) : Duration :=
  if h1 : maxInt64 < t.nanos - u.nanos then GoInt64.wrap maxInt64
  else if h2 : t.nanos - u.nanos < minInt64 then GoInt64.wrap minInt64
  else ⟨t.nanos - u.nanos, not_lt.mp h2, not_lt.mp h1⟩

/-- Go `t.Add(d)`. -/
def Time.Add (t : Time) (d : Duration) : Time := ⟨t.nanos + d.val⟩

/-! ## Package `config` -/

/-- The constants of package `config`, which `validator.go` and `main.go` import. -/
structure Config where
  DefaultRequest : GoInt
  DefaultLimit : GoInt
  DefaultWindow : Duration

/-! ## Package `validator` -/

/-- Go `validator.RateLimiterData`. -/
structure RateLimiterData where
  Requests : GoInt
  Limit : GoInt
  Window : Duration
  FirstRequestTime : Time
  deriving DecidableEq

/-- Go `validator.CreateData`. -/
structure CreateData where
  Limit : GoInt
  Window : GoInt
  deriving DecidableEq

/-- Go `validator.RateLimitCheckResult`. -/
structure RateLimitCheckResult where
  Status : Bool
  Data : RateLimiterData
  deriving DecidableEq

/-- Go `map[string]RateLimiterData`. -/
abbrev Store := String → Option RateLimiterData

/-- The empty map. -/
def Store.empty : Store := fun _ => none

/-- Go `data[k] = v`. -/
def Store.set (data : Store) (k : String) (v : RateLimiterData) : Store :=
  fun k' => if k' = k then some v else data k'

/-- The zero value of `RateLimiterData`. -/
def RateLimiterData.zero : RateLimiterData :=
  ⟨GoInt64.wrap 0, GoInt64.wrap 0, GoInt64.wrap 0, ⟨0⟩⟩

/-- Go `data[k]` used as a value: the entry, or the zero value when the key is
absent. -/
def Store.index (data : Store) (k : String) : RateLimiterData :=
  match data k with
  | some v => v
  | none => RateLimiterData.zero

/-- Go `ValidateClientID`. -/
def ValidateClientID (clientID : String) : Bool :=
  clientID != ""

/-- Go `(*RateLimiter).ValidateRequestLimit`.  The result is the returned
`RateLimitCheckResult` together with the map as the call leaves it. -/
def ValidateRequestLimit (config : Config) (clientID : String) (currentTime : Time)
    (data : Store) : RateLimitCheckResult × Store :=
  let requests := config.DefaultRequest
  let limit := config.DefaultLimit
  let window := config.DefaultWindow
  -- `clientData, ok := data[clientID]`
  let (requests, limit, data) :=
    match data clientID with
    | some clientData =>
      let (clientData, data) :=
        if Time.Sub currentTime clientData.FirstRequestTime > clientData.Window then
          let clientData := { clientData with Requests := GoInt64.wrap 0 }
          let clientData := { clientData with FirstRequestTime := currentTime }
          (clientData, data.set clientID clientData)
        else
          (clientData, data)
      (clientData.Requests, clientData.Limit, data)
    | none =>
      (requests, limit, data.set clientID ⟨requests, limit, window, currentTime⟩)
  if requests ≥ limit then
    (⟨false, data.index clientID⟩, data)
  else
    let data :=
      match data clientID with
      | some clientData =>
        let clientData := { clientData with Requests := clientData.Requests.incr }
        data.set clientID clientData
      | none => data
    (⟨true, data.index clientID⟩, data)

/-- Go `ValidateConfig`. -/
def ValidateConfig (config : CreateData) : Bool :=
  if config.Limit ≤ GoInt64.wrap 0 ∨ config.Window ≤ GoInt64.wrap 0 then false
  else true

/-! ## Package `main` -/

/-- Go `main.Response`. -/
structure Response where
  Status : Nat
  Message : String
  deriving DecidableEq

/-- Go `http.StatusOK`. -/
def StatusOK : Nat := 200
/-- Go `http.StatusBadRequest`. -/
def StatusBadRequest : Nat := 400
/-- Go `http.StatusMethodNotAllowed`. -/
def StatusMethodNotAllowed : Nat := 405
/-- Go `http.StatusTooManyRequests`. -/
def StatusTooManyRequests : Nat := 429

/-- Go `requestHandler`.  The request is reduced to what the handler reads from
it: the `clientID` header; `currentTime` is the value of `time.Now()`.  The
result is the encoded response and the map `mockedRateLimiterConfig` after the
call. -/
def requestHandler (config : Config) (clientID : String) (currentTime : Time)
    (mockedRateLimiterConfig : Store) : Response × Store :=
  let response : Response := ⟨StatusOK, "Hello " ++ clientID⟩
  if !ValidateClientID clientID then
    (⟨StatusBadRequest, "No clientID provided"⟩, mockedRateLimiterConfig)
  else
    let (rateLimiterCheck, mockedRateLimiterConfig) :=
      ValidateRequestLimit config clientID currentTime mockedRateLimiterConfig
    if !rateLimiterCheck.Status then
      (⟨StatusTooManyRequests, "Too Many Requests for " ++ clientID⟩, mockedRateLimiterConfig)
    else
      (response, mockedRateLimiterConfig.set clientID rateLimiterCheck.Data)

/-- Go `requestHandlerConfig`.  The request is reduced to its method, its
`clientID` header and the `CreateData` decoded from its body; `currentTime` is
the value of `time.Now()`. -/
def requestHandlerConfig (method : String) (clientID : String) (data : CreateData)
    (currentTime : Time) (mockedRateLimiterConfig : Store) : Response × Store :=
  if method = "POST" then
    if !ValidateClientID clientID then
      (⟨StatusBadRequest, "No clientID provided"⟩, mockedRateLimiterConfig)
    else if !ValidateConfig data then
      (⟨StatusBadRequest, "Config data must be greater than 0"⟩, mockedRateLimiterConfig)
    else
      (⟨StatusOK, "New config created for " ++ clientID⟩,
        mockedRateLimiterConfig.set clientID
          ⟨GoInt64.wrap 0, data.Limit, GoInt64.mul data.Window Second, currentTime⟩)
  else
    (⟨StatusMethodNotAllowed, "Method not allowed"⟩, mockedRateLimiterConfig)

/-- Go `mockedRateLimiterConfig` of `main.go` as initialised at start-up; the
three arguments are the values of the three `time.Now()` calls. -/
def mockedRateLimiterConfig (tA tB tTest : Time) : Store :=
  ((Store.empty.set "PT A" ⟨GoInt64.wrap 0, GoInt64.wrap 3, seconds 5, tA⟩).set "PT B"
    ⟨GoInt64.wrap 0, GoInt64.wrap 3, seconds 3, tB⟩).set "PT TEST"
    ⟨GoInt64.wrap 0, GoInt64.wrap 1, seconds 10, tTest⟩

/-- The statements of `requestHandler` that follow the call of
`ValidateRequestLimit`, for a non-empty identity.  They run after the call
has released the mutex. -/
def requestHandlerAfterCheck (clientID : String) (rateLimiterCheck : RateLimitCheckResult)
    (mockedRateLimiterConfig : Store) : Response × Store :=
  let response : Response := ⟨StatusOK, "Hello " ++ clientID⟩
  if !rateLimiterCheck.Status then
    (⟨StatusTooManyRequests, "Too Many Requests for " ++ clientID⟩, mockedRateLimiterConfig)
  else
    (response, mockedRateLimiterConfig.set clientID rateLimiterCheck.Data)

/-- One scheduling step of the `requestHandler` goroutines that serve requests
of one identity: goroutine `handler` runs its `ValidateRequestLimit` call (one
step, since the call holds the mutex from start to end), or goroutine
`handler` runs the rest of its body. -/
inductive HandlerStep where
  | check (handler : Nat) (currentTime : Time)
  | finish (handler : Nat)

/-- The shared map, the `rateLimiterCheck` local of every goroutine that has
made its call and not finished, and the responses written so far. -/
structure Handlers where
  store : Store
  held : Nat → Option RateLimitCheckResult
  responses : List (Nat × Response)

/-- Effect of one scheduling step. -/
def Handlers.step (config : Config) (clientID : String) (s : Handlers) :
    HandlerStep → Handlers
  | HandlerStep.check handler currentTime =>
    let (rateLimiterCheck, store) :=
      ValidateRequestLimit config clientID currentTime s.store
    { s with
      store := store
      held := fun h => if h = handler then some rateLimiterCheck else s.held h }
  | HandlerStep.finish handler =>
    match s.held handler with
    | none => s
    | some rateLimiterCheck =>
      let (response, store) := requestHandlerAfterCheck clientID rateLimiterCheck s.store
      { store := store
        held := fun h => if h = handler then none else s.held h
        responses := s.responses ++ [(handler, response)] }

/-- A schedule of steps run from a map on which no request is in progress. -/
def runHandlers (config : Config) (clientID : String) (schedule : List HandlerStep)
    (store : Store) : Handlers :=
  schedule.foldl (Handlers.step config clientID) ⟨store, fun _ => none, []⟩

/-- Successive calls of `ValidateRequestLimit` for one identity at the given
times, each on the map the previous call left; the results are listed in call
order. -/
def runCalls (config : Config) (clientID : String) :
    List Time → Store → List RateLimitCheckResult × Store
  | [], data => ([], data)
  | t :: ts, data =>
    let (r, data) := ValidateRequestLimit config clientID t data
    let (rs, data) := runCalls config clientID ts data
    (r :: rs, data)

/-- The working count and limit of an admission check, as the specification
words them: the defaults for an unknown identity, `(0, Limit)` for an entry whose
window has elapsed, and the stored `(Requests, Limit)` otherwise. -/
def workingCountLimit (config : Config) (clientID : String) (now : Time)
    (data : Store) : GoInt × GoInt :=
  match data clientID with
  | none => (config.DefaultRequest, config.DefaultLimit)
  | some e =>
    if Time.Sub now e.FirstRequestTime > e.Window then (GoInt64.wrap 0, e.Limit)
    else (e.Requests, e.Limit)

/-- The count/limit pair the next admission check of `clientID` starts from:
the stored entry's, or the defaults when the map has no entry. -/
def startCountLimit (config : Config) (clientID : String) (data : Store) : GoInt × GoInt :=
  match data clientID with
  | some e => (e.Requests, e.Limit)
  | none => (config.DefaultRequest, config.DefaultLimit)

/-- The bound `Requests <= Limit` and `Limit >= 0` on one entry. -/
def RateLimiterData.Bounded (e : RateLimiterData) : Prop :=
  e.Requests ≤ e.Limit ∧ 0 ≤ e.Limit.val

/-- Every entry of the map satisfies `Requests <= Limit` and `Limit >= 0`. -/
def Store.Bounded (data : Store) : Prop :=
  ∀ k e, data k = some e → e.Bounded

/-! ## Basic facts -/

theorem wrap64_of_range (z : Int) (h1 : minInt64 ≤ z) (h2 : z ≤ maxInt64) :
    wrap64 z = z := by
  unfold wrap64
  unfold minInt64 at h1
  unfold maxInt64 at h2
  omega

theorem GoInt64.ext_val {a b : GoInt64} (h : a.val = b.val) : a = b := by
  cases a; cases b; cases h; rfl

theorem GoInt64.lt_iff (a b : GoInt64) : a < b ↔ a.val < b.val := Iff.rfl

theorem GoInt64.le_iff (a b : GoInt64) : a ≤ b ↔ a.val ≤ b.val := Iff.rfl

theorem GoInt64.wrap_val (z : Int) (h1 : minInt64 ≤ z) (h2 : z ≤ maxInt64) :
    (GoInt64.wrap z).val = z := wrap64_of_range z h1 h2

theorem GoInt64.wrap_zero_val : (GoInt64.wrap 0).val = 0 := by
  show wrap64 0 = 0
  unfold wrap64; norm_num

/-- `x++` does not overflow below a bound of the same type. -/
theorem GoInt64.incr_val_of_lt (a b : GoInt64) (h : a.val < b.val) :
    a.incr.val = a.val + 1 := by
  have h1 := a.lo
  have h2 := b.hi
  exact wrap64_of_range _ (by omega) (by omega)

theorem Store.set_same (data : Store) (k : String) (v : RateLimiterData) :
    data.set k v k = some v := by
  simp [Store.set]

theorem Store.set_other (data : Store) (k k' : String) (v : RateLimiterData)
    (h : k' ≠ k) : data.set k v k' = data k' := by
  simp [Store.set, h]

theorem Store.set_set (data : Store) (k : String) (v w : RateLimiterData) :
    (data.set k v).set k w = data.set k w := by
  funext k'
  by_cases h : k' = k <;> simp [Store.set, h]

theorem Store.set_of_get (data : Store) (k : String) (v : RateLimiterData)
    (h : data k = some v) : data.set k v = data := by
  funext k'
  by_cases hk : k' = k
  · subst hk; simp [Store.set, h]
  · simp [Store.set, hk]

theorem Store.index_of_get (data : Store) (k : String) (v : RateLimiterData)
    (h : data k = some v) : data.index k = v := by
  simp [Store.index, h]

/-- An unknown identity: the defaults are stored, then the check runs on them. -/
theorem ValidateRequestLimit_absent (config : Config) (clientID : String) (now : Time)
    (data : Store) (h : data clientID = none) :
    ValidateRequestLimit config clientID now data =
      if config.DefaultRequest ≥ config.DefaultLimit then
        (⟨false, ⟨config.DefaultRequest, config.DefaultLimit, config.DefaultWindow, now⟩⟩,
          data.set clientID
            ⟨config.DefaultRequest, config.DefaultLimit, config.DefaultWindow, now⟩)
      else
        (⟨true, ⟨config.DefaultRequest.incr, config.DefaultLimit,
            config.DefaultWindow, now⟩⟩,
          data.set clientID
            ⟨config.DefaultRequest.incr, config.DefaultLimit, config.DefaultWindow, now⟩) := by
  unfold ValidateRequestLimit
  simp only [h]
  split
  · simp [Store.index, Store.set]
  · simp [Store.index, Store.set_same, Store.set_set]

/-- A known identity whose window has elapsed. -/
theorem ValidateRequestLimit_refresh (config : Config) (clientID : String) (now : Time)
    (data : Store) (e : RateLimiterData) (h : data clientID = some e)
    (hw : Time.Sub now e.FirstRequestTime > e.Window) :
    ValidateRequestLimit config clientID now data =
      if GoInt64.wrap 0 ≥ e.Limit then
        (⟨false, ⟨GoInt64.wrap 0, e.Limit, e.Window, now⟩⟩,
          data.set clientID ⟨GoInt64.wrap 0, e.Limit, e.Window, now⟩)
      else
        (⟨true, ⟨(GoInt64.wrap 0).incr, e.Limit, e.Window, now⟩⟩,
          data.set clientID ⟨(GoInt64.wrap 0).incr, e.Limit, e.Window, now⟩) := by
  unfold ValidateRequestLimit
  simp only [h, hw, if_true]
  split
  · simp [Store.index, Store.set]
  · simp [Store.index, Store.set_same, Store.set_set]

/-- A known identity inside its window. -/
theorem ValidateRequestLimit_inWindow (config : Config) (clientID : String) (now : Time)
    (data : Store) (e : RateLimiterData) (h : data clientID = some e)
    (hw : ¬ Time.Sub now e.FirstRequestTime > e.Window) :
    ValidateRequestLimit config clientID now data =
      if e.Requests ≥ e.Limit then
        (⟨false, e⟩, data)
      else
        (⟨true, ⟨e.Requests.incr, e.Limit, e.Window, e.FirstRequestTime⟩⟩,
          data.set clientID ⟨e.Requests.incr, e.Limit, e.Window, e.FirstRequestTime⟩) := by
  unfold ValidateRequestLimit
  simp only [h, hw, if_false]
  split
  · simp [Store.index, h]
  · simp [Store.index, h, Store.set_same]

theorem GoInt64.incr_wrap_zero : (GoInt64.wrap 0).incr = GoInt64.wrap 1 := by
  apply GoInt64.ext_val
  show wrap64 (wrap64 0 + 1) = wrap64 1
  unfold wrap64; norm_num

theorem GoInt64.wrap_one_val : (GoInt64.wrap 1).val = 1 := by
  show wrap64 1 = 1
  unfold wrap64; norm_num

/-- The duration between an instant and itself shifted by `d` is `d`. -/
theorem Time.Sub_Add (t : Time) (d : Duration) : Time.Sub (t.Add d) t = d := by
  have h1 := d.lo
  have h2 := d.hi
  apply GoInt64.ext_val
  unfold Time.Sub Time.Add
  have e : t.nanos + d.val - t.nanos = d.val := by omega
  simp only [e]
  rw [dif_neg (by omega), dif_neg (by omega)]

/-! ## Admission check -/

/-- C1: `ValidateRequestLimit` returns `Status = true` exactly when the working
count is strictly below the working limit (defaults for an unknown identity,
`(0, Limit)` after an elapsed window, the stored pair otherwise), and on
`true` the stored entry's `Requests` is the working count plus one. -/
theorem validateRequestLimit_status_iff_working (config : Config) (clientID : String)
    (now : Time) (data : Store) :
    ((ValidateRequestLimit config clientID now data).1.Status = true ↔
      (workingCountLimit config clientID now data).1 <
        (workingCountLimit config clientID now data).2) ∧
    ((ValidateRequestLimit config clientID now data).1.Status = true →
      ∃ e, (ValidateRequestLimit config clientID now data).2 clientID = some e ∧
        e.Requests.val = (workingCountLimit config clientID now data).1.val + 1) := by
  cases h : data clientID with
  | none =>
    rw [ValidateRequestLimit_absent config clientID now data h]
    simp only [workingCountLimit, h]
    by_cases hc : config.DefaultRequest ≥ config.DefaultLimit
    · rw [if_pos hc]
      have hc2 : config.DefaultLimit.val ≤ config.DefaultRequest.val := hc
      simp only [GoInt64.lt_iff]
      constructor
      · constructor
        · intro hf; cases hf
        · intro hlt; omega
      · intro hf; cases hf
    · rw [if_neg hc]
      have hc2 : config.DefaultRequest.val < config.DefaultLimit.val :=
        not_le.mp hc
      refine ⟨⟨fun _ => hc2, fun _ => rfl⟩, fun _ => ⟨_, Store.set_same _ _ _, ?_⟩⟩
      exact GoInt64.incr_val_of_lt _ _ hc2
  | some e =>
    by_cases hw : Time.Sub now e.FirstRequestTime > e.Window
    · rw [ValidateRequestLimit_refresh config clientID now data e h hw]
      simp only [workingCountLimit, h, hw, if_true]
      by_cases hc : GoInt64.wrap 0 ≥ e.Limit
      · rw [if_pos hc]
        have hc2 : e.Limit.val ≤ (GoInt64.wrap 0).val := hc
        simp only [GoInt64.lt_iff]
        constructor
        · constructor
          · intro hf; cases hf
          · intro hlt; omega
        · intro hf; cases hf
      · rw [if_neg hc]
        have hc2 : (GoInt64.wrap 0).val < e.Limit.val := not_le.mp hc
        refine ⟨⟨fun _ => hc2, fun _ => rfl⟩, fun _ => ⟨_, Store.set_same _ _ _, ?_⟩⟩
        exact GoInt64.incr_val_of_lt _ _ hc2
    · rw [ValidateRequestLimit_inWindow config clientID now data e h hw]
      simp only [workingCountLimit, h, hw, if_false]
      by_cases hc : e.Requests ≥ e.Limit
      · rw [if_pos hc]
        have hc2 : e.Limit.val ≤ e.Requests.val := hc
        simp only [GoInt64.lt_iff]
        constructor
        · constructor
          · intro hf; cases hf
          · intro hlt; omega
        · intro hf; cases hf
      · rw [if_neg hc]
        have hc2 : e.Requests.val < e.Limit.val := not_le.mp hc
        refine ⟨⟨fun _ => hc2, fun _ => rfl⟩, fun _ => ⟨_, Store.set_same _ _ _, ?_⟩⟩
        exact GoInt64.incr_val_of_lt _ _ hc2

/-- C1 at a concrete input: the test entry `"PT A"` (2 of 3 used, 5 s window)
called at its window start is admitted and stored with `Requests = 2 + 1`. -/
theorem validateRequestLimit_status_iff_working_witness :
    ∃ e, (ValidateRequestLimit ⟨GoInt64.wrap 0, GoInt64.wrap 10, GoInt64.wrap 60000000000⟩
          "PT A" ⟨100⟩
          (Store.empty.set "PT A"
            ⟨GoInt64.wrap 2, GoInt64.wrap 3, GoInt64.wrap 5000000000, ⟨100⟩⟩)).2 "PT A" = some e ∧
      e.Requests.val =
        (workingCountLimit ⟨GoInt64.wrap 0, GoInt64.wrap 10, GoInt64.wrap 60000000000⟩
          "PT A" ⟨100⟩
          (Store.empty.set "PT A"
            ⟨GoInt64.wrap 2, GoInt64.wrap 3, GoInt64.wrap 5000000000, ⟨100⟩⟩)).1.val + 1 :=
  (validateRequestLimit_status_iff_working
    ⟨GoInt64.wrap 0, GoInt64.wrap 10, GoInt64.wrap 60000000000⟩ "PT A" ⟨100⟩
    (Store.empty.set "PT A"
      ⟨GoInt64.wrap 2, GoInt64.wrap 3, GoInt64.wrap 5000000000, ⟨100⟩⟩)).2 (by decide)

/-- C3: for an entry with `Limit > 0`, a call whose time is more than `Window`
after `FirstRequestTime` is admitted, and the returned state and the stored
entry are both `{Requests: 1, Limit, Window, FirstRequestTime: now}`. -/
theorem validateRequestLimit_elapsed_window_admits (config : Config) (clientID : String)
    (now : Time) (data : Store) (e : RateLimiterData)
    (h : data clientID = some e) (hL : 0 < e.Limit.val)
    (hw : Time.Sub now e.FirstRequestTime > e.Window) :
    (ValidateRequestLimit config clientID now data).1 =
        ⟨true, ⟨GoInt64.wrap 1, e.Limit, e.Window, now⟩⟩ ∧
      (ValidateRequestLimit config clientID now data).2 clientID =
        some ⟨GoInt64.wrap 1, e.Limit, e.Window, now⟩ ∧
      (GoInt64.wrap 1).val = 1 := by
  rw [ValidateRequestLimit_refresh config clientID now data e h hw]
  have hc : ¬ GoInt64.wrap 0 ≥ e.Limit := by
    intro hc
    have hc2 : e.Limit.val ≤ (GoInt64.wrap 0).val := hc
    rw [GoInt64.wrap_zero_val] at hc2
    omega
  rw [if_neg hc, GoInt64.incr_wrap_zero]
  exact ⟨rfl, Store.set_same _ _ _, GoInt64.wrap_one_val⟩

/-- C3 at a concrete input: identity `"A"` with 3 of 3 requests used in a 5 s
window that started at instant 0, called at 6 s. -/
theorem validateRequestLimit_elapsed_window_admits_witness :
    (ValidateRequestLimit ⟨GoInt64.wrap 0, GoInt64.wrap 10, GoInt64.wrap 60000000000⟩ "A"
        ⟨6000000000⟩
        (Store.empty.set "A"
          ⟨GoInt64.wrap 3, GoInt64.wrap 3, GoInt64.wrap 5000000000, ⟨0⟩⟩)).1 =
        ⟨true, ⟨GoInt64.wrap 1, GoInt64.wrap 3, GoInt64.wrap 5000000000, ⟨6000000000⟩⟩⟩ ∧
      (ValidateRequestLimit ⟨GoInt64.wrap 0, GoInt64.wrap 10, GoInt64.wrap 60000000000⟩ "A"
        ⟨6000000000⟩
        (Store.empty.set "A"
          ⟨GoInt64.wrap 3, GoInt64.wrap 3, GoInt64.wrap 5000000000, ⟨0⟩⟩)).2 "A" =
        some ⟨GoInt64.wrap 1, GoInt64.wrap 3, GoInt64.wrap 5000000000, ⟨6000000000⟩⟩ ∧
      (GoInt64.wrap 1).val = 1 :=
  validateRequestLimit_elapsed_window_admits _ "A" ⟨6000000000⟩ _
    ⟨GoInt64.wrap 3, GoInt64.wrap 3, GoInt64.wrap 5000000000, ⟨0⟩⟩
    (by simp [Store.set]) (by decide) (by decide)

/-- C4: a call at exactly `FirstRequestTime + Window` does not refresh: the
stored `FirstRequestTime` stays, the call is admitted iff the stored `Requests`
is below `Limit`, and on admission the stored `Requests` grows by one. -/
theorem validateRequestLimit_boundary_no_refresh (config : Config) (clientID : String)
    (now : Time) (data : Store) (e : RateLimiterData)
    (h : data clientID = some e) (hnow : now = e.FirstRequestTime.Add e.Window) :
    (∃ e2, (ValidateRequestLimit config clientID now data).2 clientID = some e2 ∧
        e2.FirstRequestTime = e.FirstRequestTime) ∧
      ((ValidateRequestLimit config clientID now data).1.Status = true ↔
        e.Requests < e.Limit) ∧
      ((ValidateRequestLimit config clientID now data).1.Status = true →
        ∃ e2, (ValidateRequestLimit config clientID now data).2 clientID = some e2 ∧
          e2.Requests.val = e.Requests.val + 1) := by
  have hw : ¬ Time.Sub now e.FirstRequestTime > e.Window := by
    rw [hnow, Time.Sub_Add]
    exact lt_irrefl e.Window.val
  rw [ValidateRequestLimit_inWindow config clientID now data e h hw]
  by_cases hc : e.Requests ≥ e.Limit
  · rw [if_pos hc]
    have hc2 : e.Limit.val ≤ e.Requests.val := hc
    refine ⟨⟨e, h, rfl⟩, ⟨fun hf => Bool.noConfusion hf, fun hlt => ?_⟩,
      fun hf => Bool.noConfusion hf⟩
    have hlt2 : e.Requests.val < e.Limit.val := hlt
    omega
  · rw [if_neg hc]
    have hc2 : e.Requests.val < e.Limit.val := not_le.mp hc
    exact ⟨⟨_, Store.set_same _ _ _, rfl⟩, ⟨fun _ => hc2, fun _ => rfl⟩,
      fun _ => ⟨_, Store.set_same _ _ _, GoInt64.incr_val_of_lt _ _ hc2⟩⟩

/-- C4 at a concrete input: identity `"A"` with 2 of 3 requests used in a 5 s
window that started at instant 100, called at instant 100 + 5 s. -/
theorem validateRequestLimit_boundary_no_refresh_witness :
    (∃ e2, (ValidateRequestLimit ⟨GoInt64.wrap 0, GoInt64.wrap 10, GoInt64.wrap 60000000000⟩
          "A" ⟨5000000100⟩
          (Store.empty.set "A"
            ⟨GoInt64.wrap 2, GoInt64.wrap 3, GoInt64.wrap 5000000000, ⟨100⟩⟩)).2 "A" = some e2 ∧
        e2.FirstRequestTime = ⟨100⟩) ∧
      ((ValidateRequestLimit ⟨GoInt64.wrap 0, GoInt64.wrap 10, GoInt64.wrap 60000000000⟩
          "A" ⟨5000000100⟩
          (Store.empty.set "A"
            ⟨GoInt64.wrap 2, GoInt64.wrap 3, GoInt64.wrap 5000000000, ⟨100⟩⟩)).1.Status = true ↔
        GoInt64.wrap 2 < GoInt64.wrap 3) ∧
      ((ValidateRequestLimit ⟨GoInt64.wrap 0, GoInt64.wrap 10, GoInt64.wrap 60000000000⟩
          "A" ⟨5000000100⟩
          (Store.empty.set "A"
            ⟨GoInt64.wrap 2, GoInt64.wrap 3, GoInt64.wrap 5000000000, ⟨100⟩⟩)).1.Status = true →
        ∃ e2, (ValidateRequestLimit ⟨GoInt64.wrap 0, GoInt64.wrap 10, GoInt64.wrap 60000000000⟩
          "A" ⟨5000000100⟩
          (Store.empty.set "A"
            ⟨GoInt64.wrap 2, GoInt64.wrap 3, GoInt64.wrap 5000000000, ⟨100⟩⟩)).2 "A" = some e2 ∧
          e2.Requests.val = (GoInt64.wrap 2).val + 1) :=
  validateRequestLimit_boundary_no_refresh _ "A" ⟨5000000100⟩ _
    ⟨GoInt64.wrap 2, GoInt64.wrap 3, GoInt64.wrap 5000000000, ⟨100⟩⟩
    (by simp [Store.set]) (by decide)

/-- C5: for an identity without an entry, with default count 0 and default
limit above 0, the call is admitted and the returned state and the new stored
entry are both `{DefaultRequest + 1, DefaultLimit, DefaultWindow, now}`, the
sum being exact. -/
theorem validateRequestLimit_new_client_admitted (config : Config) (clientID : String)
    (now : Time) (data : Store)
    (h : data clientID = none) (h0 : config.DefaultRequest.val = 0)
    (hL : 0 < config.DefaultLimit.val) :
    (ValidateRequestLimit config clientID now data).1 =
        ⟨true, ⟨config.DefaultRequest.incr, config.DefaultLimit,
          config.DefaultWindow, now⟩⟩ ∧
      (ValidateRequestLimit config clientID now data).2 clientID =
        some ⟨config.DefaultRequest.incr, config.DefaultLimit,
          config.DefaultWindow, now⟩ ∧
      config.DefaultRequest.incr.val = config.DefaultRequest.val + 1 := by
  rw [ValidateRequestLimit_absent config clientID now data h]
  have hlt : config.DefaultRequest.val < config.DefaultLimit.val := by omega
  have hc : ¬ config.DefaultRequest ≥ config.DefaultLimit := not_le.mpr hlt
  rw [if_neg hc]
  exact ⟨rfl, Store.set_same _ _ _, GoInt64.incr_val_of_lt _ _ hlt⟩

/-- C5 at a concrete input: defaults `(0, 10, 60 s)`, empty map, identity
`"PT New"`, instant 100. -/
theorem validateRequestLimit_new_client_admitted_witness :
    (ValidateRequestLimit ⟨GoInt64.wrap 0, GoInt64.wrap 10, GoInt64.wrap 60000000000⟩
        "PT New" ⟨100⟩ Store.empty).1 =
        ⟨true, ⟨(GoInt64.wrap 0).incr, GoInt64.wrap 10, GoInt64.wrap 60000000000, ⟨100⟩⟩⟩ ∧
      (ValidateRequestLimit ⟨GoInt64.wrap 0, GoInt64.wrap 10, GoInt64.wrap 60000000000⟩
        "PT New" ⟨100⟩ Store.empty).2 "PT New" =
        some ⟨(GoInt64.wrap 0).incr, GoInt64.wrap 10, GoInt64.wrap 60000000000, ⟨100⟩⟩ ∧
      (GoInt64.wrap 0).incr.val = (GoInt64.wrap 0).val + 1 :=
  validateRequestLimit_new_client_admitted
    ⟨GoInt64.wrap 0, GoInt64.wrap 10, GoInt64.wrap 60000000000⟩ "PT New" ⟨100⟩ Store.empty
    rfl (by decide) (by decide)

/-- C6: for an entry with `Requests >= Limit` inside its window, the call
returns `Status = false` with the entry as it was, and the map is unchanged. -/
theorem validateRequestLimit_limit_reached_rejects (config : Config) (clientID : String)
    (now : Time) (data : Store) (e : RateLimiterData)
    (h : data clientID = some e) (hc : e.Requests ≥ e.Limit)
    (hw : Time.Sub now e.FirstRequestTime ≤ e.Window) :
    (ValidateRequestLimit config clientID now data).1 = ⟨false, e⟩ ∧
      (ValidateRequestLimit config clientID now data).2 = data := by
  have hw2 : ¬ Time.Sub now e.FirstRequestTime > e.Window := by
    intro hgt
    have h1 : (Time.Sub now e.FirstRequestTime).val ≤ e.Window.val := hw
    have h2 : e.Window.val < (Time.Sub now e.FirstRequestTime).val := hgt
    omega
  rw [ValidateRequestLimit_inWindow config clientID now data e h hw2, if_pos hc]
  exact ⟨rfl, rfl⟩

/-- C6 at a concrete input: the test entry `"PT Limit Max"` (3 of 3 used, 3 s
window) called at its own window start. -/
theorem validateRequestLimit_limit_reached_rejects_witness :
    (ValidateRequestLimit ⟨GoInt64.wrap 0, GoInt64.wrap 10, GoInt64.wrap 60000000000⟩
        "PT Limit Max" ⟨100⟩
        (Store.empty.set "PT Limit Max"
          ⟨GoInt64.wrap 3, GoInt64.wrap 3, GoInt64.wrap 3000000000, ⟨100⟩⟩)).1 =
        ⟨false, ⟨GoInt64.wrap 3, GoInt64.wrap 3, GoInt64.wrap 3000000000, ⟨100⟩⟩⟩ ∧
      (ValidateRequestLimit ⟨GoInt64.wrap 0, GoInt64.wrap 10, GoInt64.wrap 60000000000⟩
        "PT Limit Max" ⟨100⟩
        (Store.empty.set "PT Limit Max"
          ⟨GoInt64.wrap 3, GoInt64.wrap 3, GoInt64.wrap 3000000000, ⟨100⟩⟩)).2 =
        Store.empty.set "PT Limit Max"
          ⟨GoInt64.wrap 3, GoInt64.wrap 3, GoInt64.wrap 3000000000, ⟨100⟩⟩ :=
  validateRequestLimit_limit_reached_rejects _ "PT Limit Max" ⟨100⟩ _
    ⟨GoInt64.wrap 3, GoInt64.wrap 3, GoInt64.wrap 3000000000, ⟨100⟩⟩
    (by simp [Store.set]) (by decide) (by decide)

/-! ## Configuration update -/

theorem ValidateConfig_eq_false_iff (c : CreateData) :
    ValidateConfig c = false ↔ c.Limit.val ≤ 0 ∨ c.Window.val ≤ 0 := by
  unfold ValidateConfig
  simp only [GoInt64.le_iff, GoInt64.wrap_zero_val]
  by_cases h : c.Limit.val ≤ 0 ∨ c.Window.val ≤ 0
  · simp [h]
  · simp [h]

theorem ValidateClientID_eq_true_iff (clientID : String) :
    ValidateClientID clientID = true ↔ clientID ≠ "" := by
  simp [ValidateClientID]

/-- C7: `ValidateConfig` returns false exactly for a config with `Limit <= 0`
or `Window <= 0`, and for such a config and a non-empty identity the POST path
of `requestHandlerConfig` answers 400 and returns the map as it received it. -/
theorem requestHandlerConfig_rejects_nonpositive (c : CreateData) (clientID : String)
    (now : Time) (data : Store) :
    (ValidateConfig c = false ↔ c.Limit.val ≤ 0 ∨ c.Window.val ≤ 0) ∧
      (clientID ≠ "" → (c.Limit.val ≤ 0 ∨ c.Window.val ≤ 0) →
        requestHandlerConfig "POST" clientID c now data =
          (⟨StatusBadRequest, "Config data must be greater than 0"⟩, data)) := by
  refine ⟨ValidateConfig_eq_false_iff c, fun hid hc => ?_⟩
  have h1 : ValidateClientID clientID = true := (ValidateClientID_eq_true_iff clientID).mpr hid
  have h2 : ValidateConfig c = false := (ValidateConfig_eq_false_iff c).mpr hc
  simp [requestHandlerConfig, h1, h2]

/-- C7 at a concrete input: `{Limit: 0, Window: 5}` posted for `"PT A"`, which
already has an entry. -/
theorem requestHandlerConfig_rejects_nonpositive_witness :
    requestHandlerConfig "POST" "PT A" ⟨GoInt64.wrap 0, GoInt64.wrap 5⟩ ⟨7⟩
        (Store.empty.set "PT A"
          ⟨GoInt64.wrap 2, GoInt64.wrap 3, GoInt64.wrap 5000000000, ⟨0⟩⟩) =
      (⟨StatusBadRequest, "Config data must be greater than 0"⟩,
        Store.empty.set "PT A"
          ⟨GoInt64.wrap 2, GoInt64.wrap 3, GoInt64.wrap 5000000000, ⟨0⟩⟩) :=
  (requestHandlerConfig_rejects_nonpositive ⟨GoInt64.wrap 0, GoInt64.wrap 5⟩ "PT A" ⟨7⟩
    (Store.empty.set "PT A"
      ⟨GoInt64.wrap 2, GoInt64.wrap 3, GoInt64.wrap 5000000000, ⟨0⟩⟩)).2
    (by decide) (by decide)

/-- C8: for a non-empty identity and a config with `Limit > 0` and
`Window > 0`, the POST path of `requestHandlerConfig` answers 200 and the
stored entry of the identity has `Requests = 0`, the supplied `Limit` and
`FirstRequestTime = now`, whatever was stored before; all other keys keep
their entries. -/
theorem requestHandlerConfig_valid_overwrites (c : CreateData) (clientID : String)
    (now : Time) (data : Store)
    (hid : clientID ≠ "") (hL : 0 < c.Limit.val) (hW : 0 < c.Window.val) :
    (requestHandlerConfig "POST" clientID c now data).1 =
        ⟨StatusOK, "New config created for " ++ clientID⟩ ∧
      (∃ e, (requestHandlerConfig "POST" clientID c now data).2 clientID = some e ∧
        e.Requests.val = 0 ∧ e.Limit = c.Limit ∧ e.FirstRequestTime = now) ∧
      ∀ k, k ≠ clientID →
        (requestHandlerConfig "POST" clientID c now data).2 k = data k := by
  have h1 : ValidateClientID clientID = true := (ValidateClientID_eq_true_iff clientID).mpr hid
  have h2 : ValidateConfig c = true := by
    cases hv : ValidateConfig c with
    | true => rfl
    | false =>
      have := (ValidateConfig_eq_false_iff c).mp hv
      omega
  have hrun : requestHandlerConfig "POST" clientID c now data =
      (⟨StatusOK, "New config created for " ++ clientID⟩,
        data.set clientID
          ⟨GoInt64.wrap 0, c.Limit, GoInt64.mul c.Window Second, now⟩) := by
    simp [requestHandlerConfig, h1, h2]
  rw [hrun]
  refine ⟨rfl, ⟨_, Store.set_same _ _ _, GoInt64.wrap_zero_val, rfl, rfl⟩, fun k hk => ?_⟩
  exact Store.set_other _ _ _ _ hk

/-- C8 at a concrete input: `{Limit: 2, Window: 5}` posted for `"PT A"` at
instant 7 over an entry with 3 of 3 requests used. -/
theorem requestHandlerConfig_valid_overwrites_witness :
    (requestHandlerConfig "POST" "PT A" ⟨GoInt64.wrap 2, GoInt64.wrap 5⟩ ⟨7⟩
        (Store.empty.set "PT A"
          ⟨GoInt64.wrap 3, GoInt64.wrap 3, GoInt64.wrap 3000000000, ⟨0⟩⟩)).1 =
        ⟨StatusOK, "New config created for " ++ "PT A"⟩ ∧
      (∃ e, (requestHandlerConfig "POST" "PT A" ⟨GoInt64.wrap 2, GoInt64.wrap 5⟩ ⟨7⟩
          (Store.empty.set "PT A"
            ⟨GoInt64.wrap 3, GoInt64.wrap 3, GoInt64.wrap 3000000000, ⟨0⟩⟩)).2 "PT A" = some e ∧
        e.Requests.val = 0 ∧ e.Limit = GoInt64.wrap 2 ∧ e.FirstRequestTime = ⟨7⟩) ∧
      ∀ k, k ≠ "PT A" →
        (requestHandlerConfig "POST" "PT A" ⟨GoInt64.wrap 2, GoInt64.wrap 5⟩ ⟨7⟩
          (Store.empty.set "PT A"
            ⟨GoInt64.wrap 3, GoInt64.wrap 3, GoInt64.wrap 3000000000, ⟨0⟩⟩)).2 k =
          (Store.empty.set "PT A"
            ⟨GoInt64.wrap 3, GoInt64.wrap 3, GoInt64.wrap 3000000000, ⟨0⟩⟩) k :=
  requestHandlerConfig_valid_overwrites ⟨GoInt64.wrap 2, GoInt64.wrap 5⟩ "PT A" ⟨7⟩ _
    (by decide) (by decide) (by decide)

/-! ## Sequences of calls -/

theorem runCalls_cons (config : Config) (clientID : String) (t : Time) (ts : List Time)
    (data : Store) :
    runCalls config clientID (t :: ts) data =
      ((ValidateRequestLimit config clientID t data).1 ::
          (runCalls config clientID ts (ValidateRequestLimit config clientID t data).2).1,
        (runCalls config clientID ts (ValidateRequestLimit config clientID t data).2).2) :=
  rfl

/-- Calls inside one window, from an entry whose count does not exceed its
limit: call number `k` (from 0) is admitted iff `Requests + k < Limit`, and
returns the count `min (Requests + k + 1) Limit`. -/
theorem runCalls_inWindow (config : Config) (clientID : String) (times : List Time) :
    ∀ (data : Store) (e : RateLimiterData), data clientID = some e →
      e.Requests.val ≤ e.Limit.val →
      (∀ t ∈ times, Time.Sub t e.FirstRequestTime ≤ e.Window) →
      ∀ k : Nat, k < times.length →
        ∃ r, (runCalls config clientID times data).1[k]? = some r ∧
          r.Status = decide (e.Requests.val + k < e.Limit.val) ∧
          r.Data.Requests.val = min (e.Requests.val + k + 1) e.Limit.val := by
  induction times with
  | nil =>
    intro data e _ _ _ k hk
    simp at hk
  | cons t ts ih =>
    intro data e h hle hwin k hk
    have hw : ¬ Time.Sub t e.FirstRequestTime > e.Window := by
      intro hgt
      have h1 : (Time.Sub t e.FirstRequestTime).val ≤ e.Window.val :=
        hwin t (List.mem_cons_self t ts)
      have h2 : e.Window.val < (Time.Sub t e.FirstRequestTime).val := hgt
      omega
    have hwin2 : ∀ u ∈ ts, Time.Sub u e.FirstRequestTime ≤ e.Window :=
      fun u hu => hwin u (List.mem_cons_of_mem t hu)
    rw [runCalls_cons, ValidateRequestLimit_inWindow config clientID t data e h hw]
    by_cases hc : e.Requests ≥ e.Limit
    · have hc2 : e.Limit.val ≤ e.Requests.val := hc
      rw [if_pos hc]
      cases k with
      | zero =>
        refine ⟨⟨false, e⟩, by simp, ?_, ?_⟩
        · simp only [Nat.cast_zero, add_zero]
          exact (decide_eq_false (by omega)).symm
        · show e.Requests.val = _
          rw [min_def]
          split <;> omega
      | succ j =>
        have hj : j < ts.length := by simpa using hk
        obtain ⟨r, hr, hs, hq⟩ := ih data e h hle hwin2 j hj
        refine ⟨r, by simpa using hr, ?_, ?_⟩
        · rw [hs, decide_eq_false (by omega), decide_eq_false (by push_cast; omega)]
        · rw [hq, min_def, min_def]
          push_cast
          split <;> split <;> omega
    · have hc2 : e.Requests.val < e.Limit.val := not_le.mp hc
      have hinc : e.Requests.incr.val = e.Requests.val + 1 :=
        GoInt64.incr_val_of_lt _ _ hc2
      rw [if_neg hc]
      cases k with
      | zero =>
        refine ⟨⟨true, ⟨e.Requests.incr, e.Limit, e.Window, e.FirstRequestTime⟩⟩,
          by simp, ?_, ?_⟩
        · simp only [Nat.cast_zero, add_zero]
          exact (decide_eq_true hc2).symm
        · show e.Requests.incr.val = _
          rw [hinc, min_def]
          split <;> omega
      | succ j =>
        have hj : j < ts.length := by simpa using hk
        obtain ⟨r, hr, hs, hq⟩ :=
          ih (data.set clientID ⟨e.Requests.incr, e.Limit, e.Window, e.FirstRequestTime⟩)
            ⟨e.Requests.incr, e.Limit, e.Window, e.FirstRequestTime⟩
            (Store.set_same _ _ _) (by show e.Requests.incr.val ≤ e.Limit.val; omega)
            hwin2 j hj
        refine ⟨r, by simpa using hr, ?_, ?_⟩
        · rw [hs]
          show decide (e.Requests.incr.val + (j : Int) < e.Limit.val) = _
          rw [hinc]
          congr 1
          apply propext
          push_cast
          constructor <;> intro <;> omega
        · rw [hq]
          show min (e.Requests.incr.val + (j : Int) + 1) e.Limit.val = _
          rw [hinc]
          push_cast
          congr 1
          omega

/-- C2: from an entry with `Requests = 0` and `Limit = L > 0`, `L + 1`
successive calls whose times all lie inside the entry's window give: calls
1 to `L` admitted with returned `Requests` 1, 2, ..., `L`, and call `L + 1`
rejected with returned `Requests` equal to `L`. -/
theorem runCalls_limit_then_reject (config : Config) (clientID : String) (data : Store)
    (e : RateLimiterData) (times : List Time) (L : Nat)
    (h : data clientID = some e) (hR : e.Requests.val = 0) (hLim : e.Limit.val = L)
    (hL : 0 < L) (hlen : times.length = L + 1)
    (hwin : ∀ t ∈ times, Time.Sub t e.FirstRequestTime ≤ e.Window) :
    (∀ i : Nat, i < L → ∃ r, (runCalls config clientID times data).1[i]? = some r ∧
        r.Status = true ∧ r.Data.Requests.val = i + 1) ∧
      (∃ r, (runCalls config clientID times data).1[L]? = some r ∧
        r.Status = false ∧ r.Data.Requests.val = L) := by
  have hle : e.Requests.val ≤ e.Limit.val := by omega
  constructor
  · intro i hi
    obtain ⟨r, hr, hs, hq⟩ :=
      runCalls_inWindow config clientID times data e h hle hwin i (by omega)
    refine ⟨r, hr, ?_, ?_⟩
    · rw [hs]
      exact decide_eq_true (by omega)
    · rw [hq, min_def]
      split <;> omega
  · obtain ⟨r, hr, hs, hq⟩ :=
      runCalls_inWindow config clientID times data e h hle hwin L (by omega)
    refine ⟨r, hr, ?_, ?_⟩
    · rw [hs]
      exact decide_eq_false (by omega)
    · rw [hq, min_def]
      split <;> omega

/-- C2 at a concrete input: the entry `"PT TEST"` of `main.go` (limit 1, 10 s
window) called twice, at its window start and one second later. -/
theorem runCalls_limit_then_reject_witness :
    (∀ i : Nat, i < 1 →
        ∃ r, (runCalls ⟨GoInt64.wrap 0, GoInt64.wrap 10, GoInt64.wrap 60000000000⟩ "PT TEST"
            [⟨0⟩, ⟨1000000000⟩]
            (Store.empty.set "PT TEST"
              ⟨GoInt64.wrap 0, GoInt64.wrap 1, GoInt64.wrap 10000000000, ⟨0⟩⟩)).1[i]? = some r ∧
          r.Status = true ∧ r.Data.Requests.val = i + 1) ∧
      (∃ r, (runCalls ⟨GoInt64.wrap 0, GoInt64.wrap 10, GoInt64.wrap 60000000000⟩ "PT TEST"
            [⟨0⟩, ⟨1000000000⟩]
            (Store.empty.set "PT TEST"
              ⟨GoInt64.wrap 0, GoInt64.wrap 1, GoInt64.wrap 10000000000, ⟨0⟩⟩)).1[1]? = some r ∧
          r.Status = false ∧ r.Data.Requests.val = ((1 : Nat) : Int)) :=
  runCalls_limit_then_reject _ "PT TEST" _
    ⟨GoInt64.wrap 0, GoInt64.wrap 1, GoInt64.wrap 10000000000, ⟨0⟩⟩ [⟨0⟩, ⟨1000000000⟩] 1
    (by simp [Store.set]) (by decide) (by decide) (by decide) rfl (by decide)

theorem Time.Sub_self_val (t : Time) : (Time.Sub t t).val = 0 := by
  unfold Time.Sub
  have e : t.nanos - t.nanos = 0 := by omega
  simp only [e]
  rw [dif_neg (by decide), dif_neg (by decide)]

/-- C9: after a configuration update for `"A"` with limit 3 and window 5 s at
`t0` (from any map), the calls at `t0`, `t0 + 1 s`, `t0 + 2 s` are admitted
with returned `Requests` 1, 2, 3, the call at `t0 + 3 s` is rejected with
returned `Requests` 3, and the call at `t0 + 6 s` is admitted with returned
`Requests` 1 and `FirstRequestTime` `t0 + 6 s`. -/
theorem config_then_calls_scenario (config : Config) (data : Store) (t0 : Time) :
    (requestHandlerConfig "POST" "A" ⟨GoInt64.wrap 3, GoInt64.wrap 5⟩ t0 data).1.Status =
        StatusOK ∧
      (runCalls config "A"
          [t0, t0.Add (seconds 1), t0.Add (seconds 2), t0.Add (seconds 3),
            t0.Add (seconds 6)]
          (requestHandlerConfig "POST" "A" ⟨GoInt64.wrap 3, GoInt64.wrap 5⟩ t0 data).2).1.map
          (fun r => (r.Status, r.Data.Requests.val, r.Data.FirstRequestTime)) =
        [(true, 1, t0), (true, 2, t0), (true, 3, t0), (false, 3, t0),
          (true, 1, t0.Add (seconds 6))] := by
  have hcfg : requestHandlerConfig "POST" "A" ⟨GoInt64.wrap 3, GoInt64.wrap 5⟩ t0 data =
      (⟨StatusOK, "New config created for " ++ "A"⟩,
        data.set "A" ⟨GoInt64.wrap 0, GoInt64.wrap 3, seconds 5, t0⟩) := by
    have h1 : ValidateClientID "A" = true := by decide
    have h2 : ValidateConfig ⟨GoInt64.wrap 3, GoInt64.wrap 5⟩ = true := by decide
    simp [requestHandlerConfig, h1, h2, seconds]
  rw [hcfg]
  refine ⟨rfl, ?_⟩
  have c0 : ¬ GoInt64.wrap 0 ≥ GoInt64.wrap 3 := by decide
  have c1 : ¬ (GoInt64.wrap 0).incr ≥ GoInt64.wrap 3 := by decide
  have c2 : ¬ (GoInt64.wrap 0).incr.incr ≥ GoInt64.wrap 3 := by decide
  have c3 : (GoInt64.wrap 0).incr.incr.incr ≥ GoInt64.wrap 3 := by decide
  have v1 : (GoInt64.wrap 0).incr.val = 1 := by decide
  have v2 : (GoInt64.wrap 0).incr.incr.val = 2 := by decide
  have v3 : (GoInt64.wrap 0).incr.incr.incr.val = 3 := by decide
  -- call at `t0`
  have hw0 : ¬ Time.Sub t0 t0 > seconds 5 := by
    show ¬ (seconds 5).val < (Time.Sub t0 t0).val
    rw [Time.Sub_self_val]; decide
  rw [runCalls_cons, ValidateRequestLimit_inWindow config "A" t0 _
    ⟨GoInt64.wrap 0, GoInt64.wrap 3, seconds 5, t0⟩ (Store.set_same _ _ _) hw0]
  dsimp only
  rw [if_neg c0]
  dsimp only
  -- call at `t0 + 1 s`
  have hw1 : ¬ Time.Sub (t0.Add (seconds 1)) t0 > seconds 5 := by
    rw [Time.Sub_Add]; decide
  rw [runCalls_cons, ValidateRequestLimit_inWindow config "A" (t0.Add (seconds 1)) _
    ⟨(GoInt64.wrap 0).incr, GoInt64.wrap 3, seconds 5, t0⟩ (Store.set_same _ _ _) hw1]
  dsimp only
  rw [if_neg c1]
  dsimp only
  -- call at `t0 + 2 s`
  have hw2 : ¬ Time.Sub (t0.Add (seconds 2)) t0 > seconds 5 := by
    rw [Time.Sub_Add]; decide
  rw [runCalls_cons, ValidateRequestLimit_inWindow config "A" (t0.Add (seconds 2)) _
    ⟨(GoInt64.wrap 0).incr.incr, GoInt64.wrap 3, seconds 5, t0⟩ (Store.set_same _ _ _) hw2]
  dsimp only
  rw [if_neg c2]
  dsimp only
  -- call at `t0 + 3 s`
  have hw3 : ¬ Time.Sub (t0.Add (seconds 3)) t0 > seconds 5 := by
    rw [Time.Sub_Add]; decide
  rw [runCalls_cons, ValidateRequestLimit_inWindow config "A" (t0.Add (seconds 3)) _
    ⟨(GoInt64.wrap 0).incr.incr.incr, GoInt64.wrap 3, seconds 5, t0⟩ (Store.set_same _ _ _) hw3]
  dsimp only
  rw [if_pos c3]
  dsimp only
  -- call at `t0 + 6 s`
  have hw6 : Time.Sub (t0.Add (seconds 6)) t0 > seconds 5 := by
    rw [Time.Sub_Add]; decide
  rw [runCalls_cons, ValidateRequestLimit_refresh config "A" (t0.Add (seconds 6)) _
    ⟨(GoInt64.wrap 0).incr.incr.incr, GoInt64.wrap 3, seconds 5, t0⟩ (Store.set_same _ _ _) hw6]
  dsimp only
  rw [if_neg c0]
  simp only [runCalls, List.map_cons, List.map_nil, v1, v2, v3]

/-! ## Count against limit -/

/-- C10 as stated fails: an entry holding 5 requests against a limit of 3,
called inside its window, is rejected and returned as it is, with
`Requests = 5 > 3 = Limit`. -/
theorem rejected_entry_above_limit_counterexample :
    (ValidateRequestLimit ⟨GoInt64.wrap 0, GoInt64.wrap 10, GoInt64.wrap 60000000000⟩ "A" ⟨0⟩
        (Store.empty.set "A"
          ⟨GoInt64.wrap 5, GoInt64.wrap 3, GoInt64.wrap 5000000000, ⟨0⟩⟩)).1 =
        ⟨false, ⟨GoInt64.wrap 5, GoInt64.wrap 3, GoInt64.wrap 5000000000, ⟨0⟩⟩⟩ ∧
      ¬ (ValidateRequestLimit ⟨GoInt64.wrap 0, GoInt64.wrap 10, GoInt64.wrap 60000000000⟩ "A"
          ⟨0⟩
          (Store.empty.set "A"
            ⟨GoInt64.wrap 5, GoInt64.wrap 3, GoInt64.wrap 5000000000, ⟨0⟩⟩)).1.Data.Requests ≤
        (ValidateRequestLimit ⟨GoInt64.wrap 0, GoInt64.wrap 10, GoInt64.wrap 60000000000⟩ "A"
          ⟨0⟩
          (Store.empty.set "A"
            ⟨GoInt64.wrap 5, GoInt64.wrap 3, GoInt64.wrap 5000000000, ⟨0⟩⟩)).1.Data.Limit := by
  decide

/-- C10, amended: the state returned by `ValidateRequestLimit` satisfies
`Requests <= Limit` whenever the request is admitted, and also on rejection
when the pair the check starts from (the stored entry's, or the defaults for
an unknown identity) satisfies `Requests <= Limit` and `Limit >= 0`. -/
theorem returned_requests_le_limit (config : Config) (clientID : String) (now : Time)
    (data : Store) :
    ((ValidateRequestLimit config clientID now data).1.Status = true →
        (ValidateRequestLimit config clientID now data).1.Data.Requests ≤
          (ValidateRequestLimit config clientID now data).1.Data.Limit) ∧
      ((startCountLimit config clientID data).1 ≤ (startCountLimit config clientID data).2 →
        0 ≤ (startCountLimit config clientID data).2.val →
        (ValidateRequestLimit config clientID now data).1.Data.Requests ≤
          (ValidateRequestLimit config clientID now data).1.Data.Limit) := by
  cases h : data clientID with
  | none =>
    rw [ValidateRequestLimit_absent config clientID now data h]
    simp only [startCountLimit, h]
    by_cases hc : config.DefaultRequest ≥ config.DefaultLimit
    · rw [if_pos hc]
      exact ⟨fun hf => Bool.noConfusion hf, fun hle _ => hle⟩
    · rw [if_neg hc]
      have hc2 : config.DefaultRequest.val < config.DefaultLimit.val := not_le.mp hc
      have hinc := GoInt64.incr_val_of_lt _ _ hc2
      have goal : config.DefaultRequest.incr.val ≤ config.DefaultLimit.val := by omega
      exact ⟨fun _ => goal, fun _ _ => goal⟩
  | some e =>
    simp only [startCountLimit, h]
    by_cases hw : Time.Sub now e.FirstRequestTime > e.Window
    · rw [ValidateRequestLimit_refresh config clientID now data e h hw]
      by_cases hc : GoInt64.wrap 0 ≥ e.Limit
      · rw [if_pos hc]
        refine ⟨fun hf => Bool.noConfusion hf, fun _ h0 => ?_⟩
        show (GoInt64.wrap 0).val ≤ e.Limit.val
        rw [GoInt64.wrap_zero_val]
        exact h0
      · rw [if_neg hc]
        have hc2 : (GoInt64.wrap 0).val < e.Limit.val := not_le.mp hc
        have hinc := GoInt64.incr_val_of_lt _ _ hc2
        have goal : (GoInt64.wrap 0).incr.val ≤ e.Limit.val := by omega
        exact ⟨fun _ => goal, fun _ _ => goal⟩
    · rw [ValidateRequestLimit_inWindow config clientID now data e h hw]
      by_cases hc : e.Requests ≥ e.Limit
      · rw [if_pos hc]
        exact ⟨fun hf => Bool.noConfusion hf, fun hle _ => hle⟩
      · rw [if_neg hc]
        have hc2 : e.Requests.val < e.Limit.val := not_le.mp hc
        have hinc := GoInt64.incr_val_of_lt _ _ hc2
        have goal : e.Requests.incr.val ≤ e.Limit.val := by omega
        exact ⟨fun _ => goal, fun _ _ => goal⟩

/-- C10 amended, at a concrete input: the test entry `"PT Limit Max"` (3 of 3
used) is rejected and the returned state has `Requests <= Limit`. -/
theorem returned_requests_le_limit_witness :
    (ValidateRequestLimit ⟨GoInt64.wrap 0, GoInt64.wrap 10, GoInt64.wrap 60000000000⟩
        "PT Limit Max" ⟨100⟩
        (Store.empty.set "PT Limit Max"
          ⟨GoInt64.wrap 3, GoInt64.wrap 3, GoInt64.wrap 3000000000, ⟨100⟩⟩)).1.Data.Requests ≤
      (ValidateRequestLimit ⟨GoInt64.wrap 0, GoInt64.wrap 10, GoInt64.wrap 60000000000⟩
        "PT Limit Max" ⟨100⟩
        (Store.empty.set "PT Limit Max"
          ⟨GoInt64.wrap 3, GoInt64.wrap 3, GoInt64.wrap 3000000000, ⟨100⟩⟩)).1.Data.Limit :=
  (returned_requests_le_limit ⟨GoInt64.wrap 0, GoInt64.wrap 10, GoInt64.wrap 60000000000⟩
    "PT Limit Max" ⟨100⟩
    (Store.empty.set "PT Limit Max"
      ⟨GoInt64.wrap 3, GoInt64.wrap 3, GoInt64.wrap 3000000000, ⟨100⟩⟩)).2
    (by decide) (by decide)

/-! ## What a call writes -/

/-- Every call writes one entry, under the identity it was called for, and
returns that entry. -/
theorem ValidateRequestLimit_writes (config : Config) (clientID : String) (now : Time)
    (data : Store) :
    ∃ e2, (ValidateRequestLimit config clientID now data).2 = data.set clientID e2 ∧
      (ValidateRequestLimit config clientID now data).1.Data = e2 := by
  cases h : data clientID with
  | none =>
    rw [ValidateRequestLimit_absent config clientID now data h]
    split
    · exact ⟨_, rfl, rfl⟩
    · exact ⟨_, rfl, rfl⟩
  | some e =>
    by_cases hw : Time.Sub now e.FirstRequestTime > e.Window
    · rw [ValidateRequestLimit_refresh config clientID now data e h hw]
      split
      · exact ⟨_, rfl, rfl⟩
      · exact ⟨_, rfl, rfl⟩
    · rw [ValidateRequestLimit_inWindow config clientID now data e h hw]
      split
      · exact ⟨e, (Store.set_of_get data clientID e h).symm, rfl⟩
      · exact ⟨_, rfl, rfl⟩

/-- A positive saturated difference means the first instant is the later one. -/
theorem Time.lt_of_Sub_pos (t u : Time) (h : 0 < (Time.Sub t u).val) :
    u.nanos < t.nanos := by
  unfold Time.Sub at h
  by_cases h1 : maxInt64 < t.nanos - u.nanos
  · unfold maxInt64 at h1
    omega
  · rw [dif_neg h1] at h
    by_cases h2 : t.nanos - u.nanos < minInt64
    · rw [dif_pos h2] at h
      have e : (GoInt64.wrap minInt64).val = minInt64 :=
        GoInt64.wrap_val minInt64 (le_refl _) (by decide)
      rw [e] at h
      unfold minInt64 at h
      omega
    · rw [dif_neg h2] at h
      have h3 : 0 < t.nanos - u.nanos := h
      omega

/-- C11: for an entry with a positive `Window`, the `FirstRequestTime` stored
after a call is the old one or `now`, and is never earlier than the old one. -/
theorem validateRequestLimit_window_start_monotone (config : Config) (clientID : String)
    (now : Time) (data : Store) (e : RateLimiterData)
    (h : data clientID = some e) (hW : 0 < e.Window.val) :
    ∃ e2, (ValidateRequestLimit config clientID now data).2 clientID = some e2 ∧
      (e2.FirstRequestTime = e.FirstRequestTime ∨ e2.FirstRequestTime = now) ∧
      e.FirstRequestTime.nanos ≤ e2.FirstRequestTime.nanos := by
  by_cases hw : Time.Sub now e.FirstRequestTime > e.Window
  · have hlt : e.Window.val < (Time.Sub now e.FirstRequestTime).val := hw
    have hpos : e.FirstRequestTime.nanos < now.nanos :=
      Time.lt_of_Sub_pos now e.FirstRequestTime (by omega)
    rw [ValidateRequestLimit_refresh config clientID now data e h hw]
    split
    · exact ⟨_, Store.set_same _ _ _, Or.inr rfl, le_of_lt hpos⟩
    · exact ⟨_, Store.set_same _ _ _, Or.inr rfl, le_of_lt hpos⟩
  · rw [ValidateRequestLimit_inWindow config clientID now data e h hw]
    split
    · exact ⟨e, h, Or.inl rfl, le_refl _⟩
    · exact ⟨_, Store.set_same _ _ _, Or.inl rfl, le_refl _⟩

/-- C11 at a concrete input: `"A"` with a 5 s window started at instant 0,
called at 6 s. -/
theorem validateRequestLimit_window_start_monotone_witness :
    ∃ e2, (ValidateRequestLimit ⟨GoInt64.wrap 0, GoInt64.wrap 10, GoInt64.wrap 60000000000⟩
          "A" ⟨6000000000⟩
          (Store.empty.set "A"
            ⟨GoInt64.wrap 3, GoInt64.wrap 3, GoInt64.wrap 5000000000, ⟨0⟩⟩)).2 "A" = some e2 ∧
      (e2.FirstRequestTime = ⟨0⟩ ∨ e2.FirstRequestTime = ⟨6000000000⟩) ∧
      (0 : Int) ≤ e2.FirstRequestTime.nanos :=
  validateRequestLimit_window_start_monotone _ "A" ⟨6000000000⟩ _
    ⟨GoInt64.wrap 3, GoInt64.wrap 3, GoInt64.wrap 5000000000, ⟨0⟩⟩
    (by simp [Store.set]) (by decide)

/-- C12: for an identity that has an entry, a call leaves `Limit` and `Window`
as they were, in the returned state and in the stored entry, on every branch. -/
theorem validateRequestLimit_keeps_limit_window (config : Config) (clientID : String)
    (now : Time) (data : Store) (e : RateLimiterData) (h : data clientID = some e) :
    (ValidateRequestLimit config clientID now data).1.Data.Limit = e.Limit ∧
      (ValidateRequestLimit config clientID now data).1.Data.Window = e.Window ∧
      ∃ e2, (ValidateRequestLimit config clientID now data).2 clientID = some e2 ∧
        e2.Limit = e.Limit ∧ e2.Window = e.Window := by
  by_cases hw : Time.Sub now e.FirstRequestTime > e.Window
  · rw [ValidateRequestLimit_refresh config clientID now data e h hw]
    split
    · exact ⟨rfl, rfl, _, Store.set_same _ _ _, rfl, rfl⟩
    · exact ⟨rfl, rfl, _, Store.set_same _ _ _, rfl, rfl⟩
  · rw [ValidateRequestLimit_inWindow config clientID now data e h hw]
    split
    · exact ⟨rfl, rfl, e, h, rfl, rfl⟩
    · exact ⟨rfl, rfl, _, Store.set_same _ _ _, rfl, rfl⟩

/-- C12 at a concrete input: the test entry `"PT A"` (2 of 3 used, 5 s window)
called at its window start. -/
theorem validateRequestLimit_keeps_limit_window_witness :
    (ValidateRequestLimit ⟨GoInt64.wrap 0, GoInt64.wrap 10, GoInt64.wrap 60000000000⟩
        "PT A" ⟨100⟩
        (Store.empty.set "PT A"
          ⟨GoInt64.wrap 2, GoInt64.wrap 3, GoInt64.wrap 5000000000, ⟨100⟩⟩)).1.Data.Limit =
        GoInt64.wrap 3 ∧
      (ValidateRequestLimit ⟨GoInt64.wrap 0, GoInt64.wrap 10, GoInt64.wrap 60000000000⟩
        "PT A" ⟨100⟩
        (Store.empty.set "PT A"
          ⟨GoInt64.wrap 2, GoInt64.wrap 3, GoInt64.wrap 5000000000, ⟨100⟩⟩)).1.Data.Window =
        GoInt64.wrap 5000000000 ∧
      ∃ e2, (ValidateRequestLimit ⟨GoInt64.wrap 0, GoInt64.wrap 10, GoInt64.wrap 60000000000⟩
          "PT A" ⟨100⟩
          (Store.empty.set "PT A"
            ⟨GoInt64.wrap 2, GoInt64.wrap 3, GoInt64.wrap 5000000000, ⟨100⟩⟩)).2 "PT A" =
            some e2 ∧
        e2.Limit = GoInt64.wrap 3 ∧ e2.Window = GoInt64.wrap 5000000000 :=
  validateRequestLimit_keeps_limit_window _ "PT A" ⟨100⟩ _
    ⟨GoInt64.wrap 2, GoInt64.wrap 3, GoInt64.wrap 5000000000, ⟨100⟩⟩ (by simp [Store.set])

/-- What `requestHandler` leaves in the map for a non-empty identity: the map
of the admission check, with the returned entry written once more on
admission. -/
theorem requestHandler_store (config : Config) (clientID : String) (now : Time)
    (data : Store) (hid : clientID ≠ "") :
    (requestHandler config clientID now data).2 =
      if (ValidateRequestLimit config clientID now data).1.Status = true then
        (ValidateRequestLimit config clientID now data).2.set clientID
          (ValidateRequestLimit config clientID now data).1.Data
      else (ValidateRequestLimit config clientID now data).2 := by
  have h1 : ValidateClientID clientID = true := (ValidateClientID_eq_true_iff clientID).mpr hid
  unfold requestHandler
  simp only [h1, Bool.not_true, Bool.false_eq_true, if_false]
  cases hs : (ValidateRequestLimit config clientID now data).1.Status <;> simp [hs]

/-- C13: `ValidateClientID` accepts exactly the non-empty strings; for the
empty identity `requestHandler` and the POST path of `requestHandlerConfig`
answer 400 "No clientID provided" and return the map as received; and a map
without an entry for the empty string has none after either handler, whatever
the request. -/
theorem empty_clientID_never_stored (config : Config) (clientID method : String)
    (c : CreateData) (now : Time) (data : Store) :
    (ValidateClientID clientID = true ↔ clientID ≠ "") ∧
      requestHandler config "" now data = (⟨400, "No clientID provided"⟩, data) ∧
      requestHandlerConfig "POST" "" c now data = (⟨400, "No clientID provided"⟩, data) ∧
      (data "" = none →
        (requestHandler config clientID now data).2 "" = none ∧
          (requestHandlerConfig method clientID c now data).2 "" = none) := by
  refine ⟨ValidateClientID_eq_true_iff clientID, rfl, rfl, fun hnone => ?_⟩
  by_cases hid : clientID = ""
  · subst hid
    constructor
    · exact hnone
    · unfold requestHandlerConfig
      split
      · exact hnone
      · exact hnone
  · have hne : "" ≠ clientID := fun e => hid e.symm
    have h1 : ValidateClientID clientID = true :=
      (ValidateClientID_eq_true_iff clientID).mpr hid
    constructor
    · rw [requestHandler_store config clientID now data hid]
      obtain ⟨e2, hst, hd⟩ := ValidateRequestLimit_writes config clientID now data
      rw [hst]
      split
      · rw [Store.set_other _ _ _ _ hne, Store.set_other _ _ _ _ hne]
        exact hnone
      · rw [Store.set_other _ _ _ _ hne]
        exact hnone
    · unfold requestHandlerConfig
      simp only [h1, Bool.not_true, Bool.false_eq_true, if_false]
      split
      · split
        · exact hnone
        · show (data.set clientID _) "" = none
          rw [Store.set_other _ _ _ _ hne]
          exact hnone
      · exact hnone

/-- C13 at a concrete input: on the empty map, a request and a configuration
update for `"PT A"` leave the empty string without an entry. -/
theorem empty_clientID_never_stored_witness :
    (requestHandler ⟨GoInt64.wrap 0, GoInt64.wrap 10, GoInt64.wrap 60000000000⟩ "PT A" ⟨100⟩
        Store.empty).2 "" = none ∧
      (requestHandlerConfig "POST" "PT A" ⟨GoInt64.wrap 2, GoInt64.wrap 5⟩ ⟨100⟩
        Store.empty).2 "" = none :=
  (empty_clientID_never_stored ⟨GoInt64.wrap 0, GoInt64.wrap 10, GoInt64.wrap 60000000000⟩
    "PT A" "POST" ⟨GoInt64.wrap 2, GoInt64.wrap 5⟩ ⟨100⟩ Store.empty).2.2.2 rfl

/-- C16: after a call the map has an entry for the identity and the returned
`Data` is that entry, admitted or rejected; so writing the returned `Data`
back changes nothing, and `requestHandler` leaves the map as the call left
it. -/
theorem validateRequestLimit_returns_stored_entry (config : Config) (clientID : String)
    (now : Time) (data : Store) :
    (ValidateRequestLimit config clientID now data).2 clientID =
        some (ValidateRequestLimit config clientID now data).1.Data ∧
      (ValidateRequestLimit config clientID now data).2.set clientID
          (ValidateRequestLimit config clientID now data).1.Data =
        (ValidateRequestLimit config clientID now data).2 ∧
      (clientID ≠ "" →
        (requestHandler config clientID now data).2 =
          (ValidateRequestLimit config clientID now data).2) := by
  obtain ⟨e2, hst, hd⟩ := ValidateRequestLimit_writes config clientID now data
  have hget : (ValidateRequestLimit config clientID now data).2 clientID =
      some (ValidateRequestLimit config clientID now data).1.Data := by
    rw [hst, hd]
    exact Store.set_same _ _ _
  have hset := Store.set_of_get _ _ _ hget
  refine ⟨hget, hset, fun hid => ?_⟩
  rw [requestHandler_store config clientID now data hid, hset]
  split <;> rfl

/-- C16 at a concrete input: `requestHandler` for the entry `"PT B"` of
`main.go` at its window start leaves the map of the admission check. -/
theorem validateRequestLimit_returns_stored_entry_witness :
    (requestHandler ⟨GoInt64.wrap 0, GoInt64.wrap 10, GoInt64.wrap 60000000000⟩ "PT B" ⟨0⟩
        (Store.empty.set "PT B"
          ⟨GoInt64.wrap 0, GoInt64.wrap 3, GoInt64.wrap 3000000000, ⟨0⟩⟩)).2 =
      (ValidateRequestLimit ⟨GoInt64.wrap 0, GoInt64.wrap 10, GoInt64.wrap 60000000000⟩
        "PT B" ⟨0⟩
        (Store.empty.set "PT B"
          ⟨GoInt64.wrap 0, GoInt64.wrap 3, GoInt64.wrap 3000000000, ⟨0⟩⟩)).2 :=
  (validateRequestLimit_returns_stored_entry
    ⟨GoInt64.wrap 0, GoInt64.wrap 10, GoInt64.wrap 60000000000⟩ "PT B" ⟨0⟩
    (Store.empty.set "PT B"
      ⟨GoInt64.wrap 0, GoInt64.wrap 3, GoInt64.wrap 3000000000, ⟨0⟩⟩)).2.2 (by decide)

/-- C17: for an entry with `Limit <= 0` whose window has elapsed, the call
returns `Status = false` and the returned state and the stored entry are both
`{Requests: 0, Limit, Window, FirstRequestTime: now}`; and a call that
refreshes is rejected only when `Limit <= 0`. -/
theorem validateRequestLimit_refresh_written_on_reject (config : Config)
    (clientID : String) (now : Time) (data : Store) (e : RateLimiterData)
    (h : data clientID = some e) (hw : Time.Sub now e.FirstRequestTime > e.Window) :
    (e.Limit.val ≤ 0 →
        (ValidateRequestLimit config clientID now data).1 =
            ⟨false, ⟨GoInt64.wrap 0, e.Limit, e.Window, now⟩⟩ ∧
          (ValidateRequestLimit config clientID now data).2 clientID =
            some ⟨GoInt64.wrap 0, e.Limit, e.Window, now⟩) ∧
      ((ValidateRequestLimit config clientID now data).1.Status = false →
        e.Limit.val ≤ 0) := by
  rw [ValidateRequestLimit_refresh config clientID now data e h hw]
  by_cases hc : GoInt64.wrap 0 ≥ e.Limit
  · rw [if_pos hc]
    have hc2 : e.Limit.val ≤ (GoInt64.wrap 0).val := hc
    rw [GoInt64.wrap_zero_val] at hc2
    exact ⟨fun _ => ⟨rfl, Store.set_same _ _ _⟩, fun _ => hc2⟩
  · rw [if_neg hc]
    have hc2 : (GoInt64.wrap 0).val < e.Limit.val := not_le.mp hc
    rw [GoInt64.wrap_zero_val] at hc2
    exact ⟨fun hle => absurd hle (by omega), fun hf => Bool.noConfusion hf⟩

/-- C17 at a concrete input: `"A"` with limit 0 and a 5 s window started at
instant 0, called at 6 s. -/
theorem validateRequestLimit_refresh_written_on_reject_witness :
    (ValidateRequestLimit ⟨GoInt64.wrap 0, GoInt64.wrap 10, GoInt64.wrap 60000000000⟩ "A"
        ⟨6000000000⟩
        (Store.empty.set "A"
          ⟨GoInt64.wrap 4, GoInt64.wrap 0, GoInt64.wrap 5000000000, ⟨0⟩⟩)).1 =
        ⟨false, ⟨GoInt64.wrap 0, GoInt64.wrap 0, GoInt64.wrap 5000000000, ⟨6000000000⟩⟩⟩ ∧
      (ValidateRequestLimit ⟨GoInt64.wrap 0, GoInt64.wrap 10, GoInt64.wrap 60000000000⟩ "A"
        ⟨6000000000⟩
        (Store.empty.set "A"
          ⟨GoInt64.wrap 4, GoInt64.wrap 0, GoInt64.wrap 5000000000, ⟨0⟩⟩)).2 "A" =
        some ⟨GoInt64.wrap 0, GoInt64.wrap 0, GoInt64.wrap 5000000000, ⟨6000000000⟩⟩ :=
  (validateRequestLimit_refresh_written_on_reject _ "A" ⟨6000000000⟩ _
    ⟨GoInt64.wrap 4, GoInt64.wrap 0, GoInt64.wrap 5000000000, ⟨0⟩⟩
    (by simp [Store.set]) (by decide)).1 (by decide)

/-- C19: a call for one identity leaves the entry, or the absence of an
entry, of every other identity as it was. -/
theorem validateRequestLimit_other_identities_unchanged (config : Config)
    (clientID other : String) (now : Time) (data : Store) (hne : other ≠ clientID) :
    (ValidateRequestLimit config clientID now data).2 other = data other := by
  obtain ⟨e2, hst, _⟩ := ValidateRequestLimit_writes config clientID now data
  rw [hst]
  exact Store.set_other _ _ _ _ hne

/-- C19 at a concrete input: an admitted call for the new identity `"PT New"`
leaves the entry of `"PT A"` in place. -/
theorem validateRequestLimit_other_identities_unchanged_witness :
    (ValidateRequestLimit ⟨GoInt64.wrap 0, GoInt64.wrap 10, GoInt64.wrap 60000000000⟩
        "PT New" ⟨100⟩
        (Store.empty.set "PT A"
          ⟨GoInt64.wrap 2, GoInt64.wrap 3, GoInt64.wrap 5000000000, ⟨100⟩⟩)).2 "PT A" =
      (Store.empty.set "PT A"
        ⟨GoInt64.wrap 2, GoInt64.wrap 3, GoInt64.wrap 5000000000, ⟨100⟩⟩) "PT A" :=
  validateRequestLimit_other_identities_unchanged _ "PT New" "PT A" ⟨100⟩ _ (by decide)

/-! ## The bound as an invariant of the map -/

theorem Store.Bounded_empty : Store.empty.Bounded := by
  intro k e hk
  cases hk

theorem Store.Bounded_set (data : Store) (k : String) (v : RateLimiterData)
    (hd : data.Bounded) (hv : v.Bounded) : (data.set k v).Bounded := by
  intro k' e hk
  by_cases h : k' = k
  · subst h
    rw [Store.set_same] at hk
    cases hk
    exact hv
  · rw [Store.set_other _ _ _ _ h] at hk
    exact hd k' e hk

/-- The entry a call returns is bounded when the map and the defaults are. -/
theorem ValidateRequestLimit_data_bounded (config : Config) (clientID : String)
    (now : Time) (data : Store) (hdata : data.Bounded)
    (hdef : config.DefaultRequest ≤ config.DefaultLimit)
    (hlim : 0 ≤ config.DefaultLimit.val) :
    (ValidateRequestLimit config clientID now data).1.Data.Bounded := by
  cases h : data clientID with
  | none =>
    rw [ValidateRequestLimit_absent config clientID now data h]
    by_cases hc : config.DefaultRequest ≥ config.DefaultLimit
    · rw [if_pos hc]
      exact ⟨hdef, hlim⟩
    · rw [if_neg hc]
      have hc2 : config.DefaultRequest.val < config.DefaultLimit.val := not_le.mp hc
      have hinc := GoInt64.incr_val_of_lt _ _ hc2
      refine ⟨?_, hlim⟩
      show config.DefaultRequest.incr.val ≤ config.DefaultLimit.val
      omega
  | some e =>
    obtain ⟨hle, h0⟩ := hdata clientID e h
    by_cases hw : Time.Sub now e.FirstRequestTime > e.Window
    · rw [ValidateRequestLimit_refresh config clientID now data e h hw]
      by_cases hc : GoInt64.wrap 0 ≥ e.Limit
      · rw [if_pos hc]
        refine ⟨?_, h0⟩
        show (GoInt64.wrap 0).val ≤ e.Limit.val
        rw [GoInt64.wrap_zero_val]
        exact h0
      · rw [if_neg hc]
        have hc2 : (GoInt64.wrap 0).val < e.Limit.val := not_le.mp hc
        have hinc := GoInt64.incr_val_of_lt _ _ hc2
        refine ⟨?_, h0⟩
        show (GoInt64.wrap 0).incr.val ≤ e.Limit.val
        omega
    · rw [ValidateRequestLimit_inWindow config clientID now data e h hw]
      by_cases hc : e.Requests ≥ e.Limit
      · rw [if_pos hc]
        exact ⟨hle, h0⟩
      · rw [if_neg hc]
        have hc2 : e.Requests.val < e.Limit.val := not_le.mp hc
        have hinc := GoInt64.incr_val_of_lt _ _ hc2
        refine ⟨?_, h0⟩
        show e.Requests.incr.val ≤ e.Limit.val
        omega

/-- C18: when every entry of the map satisfies `Requests <= Limit` and
`Limit >= 0` and the defaults satisfy `DefaultRequest <= DefaultLimit` and
`DefaultLimit >= 0`, every entry still satisfies the bound after any
`ValidateRequestLimit` call, after any `requestHandlerConfig` request
(accepted or rejected) and after any `requestHandler` request. -/
theorem store_bounded_preserved (config : Config) (clientID method : String)
    (c : CreateData) (now : Time) (data : Store) (hdata : data.Bounded)
    (hdef : config.DefaultRequest ≤ config.DefaultLimit)
    (hlim : 0 ≤ config.DefaultLimit.val) :
    (ValidateRequestLimit config clientID now data).2.Bounded ∧
      (requestHandlerConfig method clientID c now data).2.Bounded ∧
      (requestHandler config clientID now data).2.Bounded := by
  have hb := ValidateRequestLimit_data_bounded config clientID now data hdata hdef hlim
  obtain ⟨e2, hst, hd⟩ := ValidateRequestLimit_writes config clientID now data
  have hcall : (ValidateRequestLimit config clientID now data).2.Bounded := by
    rw [hst]
    exact Store.Bounded_set data clientID e2 hdata (hd ▸ hb)
  refine ⟨hcall, ?_, ?_⟩
  · unfold requestHandlerConfig
    split
    · split
      · exact hdata
      · split
        · exact hdata
        · rename_i hv
          have hv2 : ValidateConfig c = true := by
            cases hvc : ValidateConfig c with
            | true => rfl
            | false => rw [hvc] at hv; exact absurd rfl hv
          have hpos : 0 < c.Limit.val := by
            by_contra hcon
            have := (ValidateConfig_eq_false_iff c).mpr (Or.inl (by omega))
            rw [hv2] at this
            cases this
          apply Store.Bounded_set _ _ _ hdata
          constructor
          · show (GoInt64.wrap 0).val ≤ c.Limit.val
            rw [GoInt64.wrap_zero_val]
            omega
          · show 0 ≤ c.Limit.val
            omega
    · exact hdata
  · by_cases hid : clientID = ""
    · subst hid
      exact hdata
    · rw [requestHandler_store config clientID now data hid]
      split
      · exact Store.Bounded_set _ _ _ hcall hb
      · exact hcall

/-- C18 at a concrete input: the map holding the test entry `"PT A"` (2 of 3
used), defaults `(0, 10)`, a call for `"PT A"` and an accepted update. -/
theorem store_bounded_preserved_witness :
    (ValidateRequestLimit ⟨GoInt64.wrap 0, GoInt64.wrap 10, GoInt64.wrap 60000000000⟩
        "PT A" ⟨100⟩
        (Store.empty.set "PT A"
          ⟨GoInt64.wrap 2, GoInt64.wrap 3, GoInt64.wrap 5000000000, ⟨100⟩⟩)).2.Bounded ∧
      (requestHandlerConfig "POST" "PT A" ⟨GoInt64.wrap 2, GoInt64.wrap 5⟩ ⟨100⟩
        (Store.empty.set "PT A"
          ⟨GoInt64.wrap 2, GoInt64.wrap 3, GoInt64.wrap 5000000000, ⟨100⟩⟩)).2.Bounded ∧
      (requestHandler ⟨GoInt64.wrap 0, GoInt64.wrap 10, GoInt64.wrap 60000000000⟩
        "PT A" ⟨100⟩
        (Store.empty.set "PT A"
          ⟨GoInt64.wrap 2, GoInt64.wrap 3, GoInt64.wrap 5000000000, ⟨100⟩⟩)).2.Bounded :=
  store_bounded_preserved ⟨GoInt64.wrap 0, GoInt64.wrap 10, GoInt64.wrap 60000000000⟩
    "PT A" "POST" ⟨GoInt64.wrap 2, GoInt64.wrap 5⟩ ⟨100⟩ _
    (Store.Bounded_set _ _ _ Store.Bounded_empty ⟨by decide, by decide⟩)
    (by decide) (by decide)

/-! ## Counting admissions in one window -/

/-- Calls inside one window, from an entry whose count does not exceed its
limit: there is one result per call, the number of admitted calls is
`min n (Limit - Requests)`, and the entry left in the map has the count
`min (Requests + n) Limit`. -/
theorem runCalls_inWindow_total (config : Config) (clientID : String) (times : List Time) :
    ∀ (data : Store) (e : RateLimiterData), data clientID = some e →
      e.Requests.val ≤ e.Limit.val →
      (∀ t ∈ times, Time.Sub t e.FirstRequestTime ≤ e.Window) →
      (runCalls config clientID times data).1.length = times.length ∧
        (((runCalls config clientID times data).1.filter (fun r => r.Status)).length : Int) =
          min (times.length : Int) (e.Limit.val - e.Requests.val) ∧
        ∃ e2, (runCalls config clientID times data).2 clientID = some e2 ∧
          e2.Requests.val = min (e.Requests.val + times.length) e.Limit.val := by
  induction times with
  | nil =>
    intro data e h hle _
    refine ⟨rfl, ?_, e, h, ?_⟩
    · simp only [runCalls, List.filter_nil, List.length_nil, Nat.cast_zero]
      rw [min_def]
      split <;> omega
    · simp only [List.length_nil, Nat.cast_zero, add_zero]
      rw [min_def]
      split <;> omega
  | cons t ts ih =>
    intro data e h hle hwin
    have hw : ¬ Time.Sub t e.FirstRequestTime > e.Window := by
      intro hgt
      have h1 : (Time.Sub t e.FirstRequestTime).val ≤ e.Window.val :=
        hwin t (List.mem_cons_self t ts)
      have h2 : e.Window.val < (Time.Sub t e.FirstRequestTime).val := hgt
      omega
    have hwin2 : ∀ u ∈ ts, Time.Sub u e.FirstRequestTime ≤ e.Window :=
      fun u hu => hwin u (List.mem_cons_of_mem t hu)
    rw [runCalls_cons, ValidateRequestLimit_inWindow config clientID t data e h hw]
    by_cases hc : e.Requests ≥ e.Limit
    · have hc2 : e.Limit.val ≤ e.Requests.val := hc
      rw [if_pos hc]
      obtain ⟨hlen, hcount, e2, he2, hq⟩ := ih data e h hle hwin2
      refine ⟨by simp [hlen], ?_, e2, he2, ?_⟩
      · have hf : (List.filter (fun r => r.Status)
            ((⟨false, e⟩ : RateLimitCheckResult) ::
              (runCalls config clientID ts data).1)).length =
            (List.filter (fun r => r.Status) (runCalls config clientID ts data).1).length := by
          simp
        show ((List.filter (fun r => r.Status)
            ((⟨false, e⟩ : RateLimitCheckResult) ::
              (runCalls config clientID ts data).1)).length : Int) = _
        rw [hf, hcount, min_def, min_def]
        simp only [List.length_cons]
        push_cast
        split <;> split <;> omega
      · rw [hq, min_def, min_def]
        simp only [List.length_cons]
        push_cast
        split <;> split <;> omega
    · have hc2 : e.Requests.val < e.Limit.val := not_le.mp hc
      have hinc : e.Requests.incr.val = e.Requests.val + 1 :=
        GoInt64.incr_val_of_lt _ _ hc2
      rw [if_neg hc]
      obtain ⟨hlen, hcount, e2, he2, hq⟩ :=
        ih (data.set clientID ⟨e.Requests.incr, e.Limit, e.Window, e.FirstRequestTime⟩)
          ⟨e.Requests.incr, e.Limit, e.Window, e.FirstRequestTime⟩
          (Store.set_same _ _ _) (by show e.Requests.incr.val ≤ e.Limit.val; omega)
          hwin2
      refine ⟨by simp [hlen], ?_, e2, he2, ?_⟩
      · have hf : (List.filter (fun r => r.Status)
            ((⟨true, ⟨e.Requests.incr, e.Limit, e.Window, e.FirstRequestTime⟩⟩ :
                RateLimitCheckResult) ::
              (runCalls config clientID ts
                (data.set clientID
                  ⟨e.Requests.incr, e.Limit, e.Window, e.FirstRequestTime⟩)).1)).length =
            (List.filter (fun r => r.Status)
              (runCalls config clientID ts
                (data.set clientID
                  ⟨e.Requests.incr, e.Limit, e.Window, e.FirstRequestTime⟩)).1).length + 1 := by
          simp
        show ((List.filter (fun r => r.Status)
            ((⟨true, ⟨e.Requests.incr, e.Limit, e.Window, e.FirstRequestTime⟩⟩ :
                RateLimitCheckResult) ::
              (runCalls config clientID ts
                (data.set clientID
                  ⟨e.Requests.incr, e.Limit, e.Window, e.FirstRequestTime⟩)).1)).length : Int) = _
        rw [hf]
        push_cast
        rw [hcount]
        show min (ts.length : Int) (e.Limit.val - e.Requests.incr.val) + 1 = _
        rw [hinc, min_def, min_def]
        simp only [List.length_cons]
        push_cast
        split <;> split <;> omega
      · rw [hq]
        show min (e.Requests.incr.val + (ts.length : Int)) e.Limit.val = _
        rw [hinc, min_def, min_def]
        simp only [List.length_cons]
        push_cast
        split <;> split <;> omega

/-- C20: from an entry with `Requests = 0` and `Limit = L >= 0`, `N`
successive calls whose times all lie inside the entry's window give `N`
results of which call `k` (from 0) is admitted exactly when `k < L`; so
`min N L` calls are admitted, the first `min N L` of them, and the stored
`Requests` at the end is `min N L`. -/
theorem runCalls_admits_min (config : Config) (clientID : String) (data : Store)
    (e : RateLimiterData) (times : List Time) (L : Nat)
    (h : data clientID = some e) (hR : e.Requests.val = 0) (hLim : e.Limit.val = L)
    (hwin : ∀ t ∈ times, Time.Sub t e.FirstRequestTime ≤ e.Window) :
    (runCalls config clientID times data).1.length = times.length ∧
      (∀ k : Nat, k < times.length →
        ∃ r, (runCalls config clientID times data).1[k]? = some r ∧
          r.Status = decide (k < L)) ∧
      ((runCalls config clientID times data).1.filter (fun r => r.Status)).length =
        min times.length L ∧
      ∃ e2, (runCalls config clientID times data).2 clientID = some e2 ∧
        e2.Requests.val = ((min times.length L : Nat) : Int) := by
  have hle : e.Requests.val ≤ e.Limit.val := by omega
  obtain ⟨hlen, hcount, e2, he2, hq⟩ :=
    runCalls_inWindow_total config clientID times data e h hle hwin
  refine ⟨hlen, fun k hk => ?_, ?_, e2, he2, ?_⟩
  · obtain ⟨r, hr, hs, _⟩ := runCalls_inWindow config clientID times data e h hle hwin k hk
    refine ⟨r, hr, ?_⟩
    rw [hs]
    congr 1
    apply propext
    constructor <;> intro <;> omega
  · rw [min_def] at hcount
    rw [min_def]
    split at hcount <;> split <;> omega
  · rw [hq, min_def, min_def]
    push_cast
    split <;> split <;> omega

/-- C20 at a concrete input: the entry `"PT TEST"` of `main.go` (limit 1, 10 s
window) called three times inside its window. -/
theorem runCalls_admits_min_witness :
    (runCalls ⟨GoInt64.wrap 0, GoInt64.wrap 10, GoInt64.wrap 60000000000⟩ "PT TEST"
        [⟨0⟩, ⟨1000000000⟩, ⟨2000000000⟩]
        (Store.empty.set "PT TEST"
          ⟨GoInt64.wrap 0, GoInt64.wrap 1, GoInt64.wrap 10000000000, ⟨0⟩⟩)).1.length = 3 ∧
      (∀ k : Nat, k < 3 →
        ∃ r, (runCalls ⟨GoInt64.wrap 0, GoInt64.wrap 10, GoInt64.wrap 60000000000⟩ "PT TEST"
            [⟨0⟩, ⟨1000000000⟩, ⟨2000000000⟩]
            (Store.empty.set "PT TEST"
              ⟨GoInt64.wrap 0, GoInt64.wrap 1, GoInt64.wrap 10000000000, ⟨0⟩⟩)).1[k]? = some r ∧
          r.Status = decide (k < 1)) ∧
      ((runCalls ⟨GoInt64.wrap 0, GoInt64.wrap 10, GoInt64.wrap 60000000000⟩ "PT TEST"
          [⟨0⟩, ⟨1000000000⟩, ⟨2000000000⟩]
          (Store.empty.set "PT TEST"
            ⟨GoInt64.wrap 0, GoInt64.wrap 1, GoInt64.wrap 10000000000, ⟨0⟩⟩)).1.filter
          (fun r => r.Status)).length = min 3 1 ∧
      ∃ e2, (runCalls ⟨GoInt64.wrap 0, GoInt64.wrap 10, GoInt64.wrap 60000000000⟩ "PT TEST"
          [⟨0⟩, ⟨1000000000⟩, ⟨2000000000⟩]
          (Store.empty.set "PT TEST"
            ⟨GoInt64.wrap 0, GoInt64.wrap 1, GoInt64.wrap 10000000000, ⟨0⟩⟩)).2 "PT TEST" =
            some e2 ∧
        e2.Requests.val = ((min 3 1 : Nat) : Int) :=
  runCalls_admits_min _ "PT TEST" _
    ⟨GoInt64.wrap 0, GoInt64.wrap 1, GoInt64.wrap 10000000000, ⟨0⟩⟩
    [⟨0⟩, ⟨1000000000⟩, ⟨2000000000⟩] 1
    (by simp [Store.set]) (by decide) (by decide) (by decide)

/-! ## Stored window of a configuration update -/

/-- Below the overflow bound the stored window is the supplied number of
seconds. -/
theorem mul_Second_exact (w : GoInt) (h0 : 0 ≤ w.val) (h : w.val ≤ 9223372036) :
    (GoInt64.mul w Second).val = w.val * 1000000000 := by
  have hs : Second.val = 1000000000 := by decide
  show wrap64 (w.val * Second.val) = _
  rw [hs]
  apply wrap64_of_range
  · unfold minInt64; omega
  · unfold maxInt64; omega

/-- C15 fails on the code: `{Limit: 1, Window: 9223372037}` passes
`ValidateConfig`, and the entry the configuration update stores has the
negative `Window` -9223372036709551616 ns, the product wrapped modulo 2^64;
with it the limit 1 is not enforced, two calls at the same instant are both
admitted. -/
theorem requestHandlerConfig_window_wraps :
    ValidateConfig ⟨GoInt64.wrap 1, GoInt64.wrap 9223372037⟩ = true ∧
      (GoInt64.wrap 9223372037).val = 9223372037 ∧
      (requestHandlerConfig "POST" "A" ⟨GoInt64.wrap 1, GoInt64.wrap 9223372037⟩ ⟨0⟩
        Store.empty).1.Status = 200 ∧
      (requestHandlerConfig "POST" "A" ⟨GoInt64.wrap 1, GoInt64.wrap 9223372037⟩ ⟨0⟩
        Store.empty).2 "A" =
        some ⟨GoInt64.wrap 0, GoInt64.wrap 1, GoInt64.wrap (-9223372036709551616), ⟨0⟩⟩ ∧
      (GoInt64.wrap (-9223372036709551616)).val = -9223372036709551616 ∧
      (runCalls ⟨GoInt64.wrap 0, GoInt64.wrap 10, GoInt64.wrap 60000000000⟩ "A" [⟨0⟩, ⟨0⟩]
        (requestHandlerConfig "POST" "A" ⟨GoInt64.wrap 1, GoInt64.wrap 9223372037⟩ ⟨0⟩
          Store.empty).2).1.map (fun r => r.Status) = [true, true] := by
  decide

/-! ## Requests served concurrently -/

/-- A goroutine scheduled alone does what `requestHandler` does. -/
theorem runHandlers_alone (config : Config) (clientID : String) (handler : Nat)
    (now : Time) (data : Store) (hid : clientID ≠ "") :
    (runHandlers config clientID [HandlerStep.check handler now, HandlerStep.finish handler]
        data).store = (requestHandler config clientID now data).2 ∧
      (runHandlers config clientID [HandlerStep.check handler now, HandlerStep.finish handler]
        data).responses = [(handler, (requestHandler config clientID now data).1)] := by
  have h1 : ValidateClientID clientID = true := (ValidateClientID_eq_true_iff clientID).mpr hid
  unfold requestHandler
  simp only [runHandlers, List.foldl, Handlers.step, requestHandlerAfterCheck, h1,
    Bool.not_true, Bool.false_eq_true, if_false, if_true, List.nil_append]
  cases hs : (ValidateRequestLimit config clientID now data).1.Status <;> simp [hs]

/-- C14 fails on the code: four requests of `"PT B"` (limit 3, 3 s window, the
start-up map of `main.go`) inside one fresh window.  Goroutines 1, 2, 3 make
their `ValidateRequestLimit` calls, goroutine 1 then runs its write-back of
the state it was returned (count 1) over the stored count 3, and goroutine 4
makes its call: all four requests are answered 200, and the map ends with the
count 2. -/
theorem concurrent_handlers_admit_above_limit :
    ((runHandlers ⟨GoInt64.wrap 0, GoInt64.wrap 10, GoInt64.wrap 60000000000⟩ "PT B"
        [HandlerStep.check 1 ⟨0⟩, HandlerStep.check 2 ⟨0⟩, HandlerStep.check 3 ⟨0⟩,
          HandlerStep.finish 1, HandlerStep.check 4 ⟨0⟩, HandlerStep.finish 2,
          HandlerStep.finish 3, HandlerStep.finish 4]
        (mockedRateLimiterConfig ⟨0⟩ ⟨0⟩ ⟨0⟩)).responses.map
        (fun r => (r.1, r.2.Status))) = [(1, 200), (2, 200), (3, 200), (4, 200)] ∧
      (runHandlers ⟨GoInt64.wrap 0, GoInt64.wrap 10, GoInt64.wrap 60000000000⟩ "PT B"
        [HandlerStep.check 1 ⟨0⟩, HandlerStep.check 2 ⟨0⟩, HandlerStep.check 3 ⟨0⟩,
          HandlerStep.finish 1, HandlerStep.check 4 ⟨0⟩, HandlerStep.finish 2,
          HandlerStep.finish 3, HandlerStep.finish 4]
        (mockedRateLimiterConfig ⟨0⟩ ⟨0⟩ ⟨0⟩)).store "PT B" =
        some ⟨GoInt64.wrap 2, GoInt64.wrap 3, seconds 3, ⟨0⟩⟩ := by
  decide

end RateLimiter
